import Mathlib

/-!
# Verification of the terrain/biome generation engine

A shallow embedding of the terrain generation core of the `game-prototyper`
repository, together with theorems settling the frozen claims about it.

Sources embedded:
* `src/terrain.ts` — `TerrainGenerator` (continuous control-range model,
  multi-material splitter, normals, height query, color ramps).
* `src/js/noise.ts` — the simplified `PerlinNoise` (`fractalNoise`).
* the `PerlinNoise` variant with the mulberry32-seeded permutation
  (unnamed source file; the module imported by `terrain.ts` as `./noise`).

JavaScript numbers are modelled as exact rationals (`ℚ`); 32-bit integer
operations of the PRNG are modelled on `ℕ` with explicit reduction mod 2^32,
which agrees exactly with the JS `|0` / `>>>` / `Math.imul` semantics because
every intermediate value stays below 2^53.  `Math.sqrt` is modelled by
`ratSqrt`, which is exact on perfect-square rationals (all concrete inputs
used in theorems keep the relevant radicands perfect squares).
-/

namespace GameProto

/-- 2^32, the modulus of all JS 32-bit bitwise arithmetic. -/
def U32 : ℕ := 4294967296

/-! ## Seeded PRNG and permutation table

From the repository's `PerlinNoise` class (mulberry32 + Fisher-Yates):

```js
private mulberry32(a) { return function() {
    a |= 0; a = (a + 0x6D2B79F5) | 0;
    let t = Math.imul(a ^ (a >>> 15), 1 | a);
    t = (t + Math.imul(t ^ (t >>> 7), 61 | t)) ^ t;
    return ((t ^ (t >>> 14)) >>> 0) / 4294967296; }; }
```
-/

/-- One call of the mulberry32 closure: current state `a` ↦ (next state,
32-bit output `t`); the JS function returns `t / 2^32`. -/
def mulberry32Step (a : ℕ) : ℕ × ℕ :=
  let a' := (a + 0x6D2B79F5) % U32
  let t1 := ((a' ^^^ (a' >>> 15)) * (1 ||| a')) % U32
  let t2 := (((t1 + ((t1 ^^^ (t1 >>> 7)) * (61 ||| t1)) % U32) % U32) ^^^ t1)
  (a', t2 ^^^ (t2 >>> 14))

/-- One Fisher-Yates step at position `i`:
`const j = Math.floor(rand() * (i + 1)); swap p[i], p[j]`.
`rand() * (i+1)` floors to `t * (i+1) / 2^32` in integer arithmetic. -/
def shuffleStep (st : ℕ × List ℕ) (i : ℕ) : ℕ × List ℕ :=
  let a := st.1
  let p := st.2
  let s := mulberry32Step a
  let j := s.2 * (i + 1) / U32
  (s.1, (p.set i (p.getD j 0)).set j (p.getD i 0))

/-- `generatePermutation(seed)`: identity table of 256 entries, shuffled by
Fisher-Yates driven by `mulberry32(seed >>> 0)` (loop `i = 255 … 1`), then
duplicated to 512 entries for wrap-free lookups. -/
def generatePermutation (seed : ℕ) : List ℕ :=
  let init : ℕ × List ℕ := (seed % U32, List.range 256)
  let p := ((List.range 255).foldl (fun st k => shuffleStep st (255 - k)) init).2
  p ++ p

/-! ## Perlin gradient noise core

The `fade` / `lerp` / `grad` / `noise` bodies are character-identical in
`src/js/noise.ts` and in the mulberry32 `PerlinNoise` variant, so one
embedding serves both. -/

/-- `fade(t) = t*t*t*(t*(t*6-15)+10)` — the 6t⁵−15t⁴+10t³ fade curve. -/
def fade (t : ℚ) : ℚ := t * t * t * (t * (t * 6 - 15) + 10)

/-- The noise class's `lerp(a, b, t) = a + t * (b - a)`. -/
def noiseLerp (a b t : ℚ) : ℚ := a + t * (b - a)

/-- `grad(hash, x, y, z)`: 12/16-direction gradient selection. -/
def grad (hash : ℕ) (x y z : ℚ) : ℚ :=
  let h := hash &&& 15
  let u := if h < 8 then x else y
  let v := if h < 4 then y else if h = 12 ∨ h = 14 then x else z
  (if h &&& 1 = 0 then u else -u) + (if h &&& 2 = 0 then v else -v)

/-- `noise(x, y, z)`: classic Perlin gradient noise over a 512-entry
permutation table.  `Math.floor(x) & 255` on the (small) lattice coordinate
equals `⌊x⌋ mod 256`; lattice indices stay within the 512-entry table, so the
`getD` default is never taken on the tables produced above. -/
def perlinNoise (perm : List ℕ) (x y z : ℚ) : ℚ :=
  let X := ((Int.floor x) % 256).toNat
  let Y := ((Int.floor y) % 256).toNat
  let Z := ((Int.floor z) % 256).toNat
  let xf := x - Int.floor x
  let yf := y - Int.floor y
  let zf := z - Int.floor z
  let u := fade xf
  let v := fade yf
  let w := fade zf
  let A := perm.getD X 0 + Y
  let AA := perm.getD A 0 + Z
  let AB := perm.getD (A + 1) 0 + Z
  let B := perm.getD (X + 1) 0 + Y
  let BA := perm.getD B 0 + Z
  let BB := perm.getD (B + 1) 0 + Z
  noiseLerp
    (noiseLerp
      (noiseLerp (grad (perm.getD AA 0) xf yf zf)
        (grad (perm.getD BA 0) (xf - 1) yf zf) u)
      (noiseLerp (grad (perm.getD AB 0) xf (yf - 1) zf)
        (grad (perm.getD BB 0) (xf - 1) (yf - 1) zf) u)
      v)
    (noiseLerp
      (noiseLerp (grad (perm.getD (AA + 1) 0) xf yf (zf - 1))
        (grad (perm.getD (BA + 1) 0) (xf - 1) yf (zf - 1)) u)
      (noiseLerp (grad (perm.getD (AB + 1) 0) xf (yf - 1) (zf - 1))
        (grad (perm.getD (BB + 1) 0) (xf - 1) (yf - 1) (zf - 1)) u)
      v)
    w

/-! ## `fractalNoise` from `src/js/noise.ts` -/

/-- State of the `fractalNoise` loop: (value, amplitude, frequency, maxValue). -/
def fractalStep (perm : List ℕ) (x y persistence : ℚ)
    (st : ℚ × ℚ × ℚ × ℚ) : ℚ × ℚ × ℚ × ℚ :=
  let value := st.1
  let amplitude := st.2.1
  let frequency := st.2.2.1
  let maxValue := st.2.2.2
  (value + perlinNoise perm (x * frequency) (y * frequency) 0 * amplitude,
   amplitude * persistence, frequency * 2, maxValue + amplitude)

/-- `fractalNoise(x, y, octaves, persistence, scale)` from `src/js/noise.ts`:
sums `octaves` noise samples at doubling frequency and decaying amplitude and
divides by the amplitude sum.  No clamping is performed by the source.  The
final `value / maxValue` is a JS float division: with `octaves = 0` it is
`0 / 0 = NaN`, modelled as `none`. -/
def fractalNoise (perm : List ℕ) (x y : ℚ) (octaves : ℕ)
    (persistence scale : ℚ) : Option ℚ :=
  let st := (List.range octaves).foldl
    (fun st _ => fractalStep perm x y persistence st) (0, 1, scale, 0)
  if st.2.2.2 = 0 then none else some (st.1 / st.2.2.2)

end GameProto

namespace GameProto

/-! ## fBm — modelled from the spec

`terrain.ts` imports `PerlinNoise` from `./noise` and calls
`this.noise.fBm(worldX, worldZ, params)`.  The `fBm` method itself is absent
from the available sources (the in-repo `PerlinNoise` variant provides the
constructor/permutation/`noise` used here, but only a `fractalNoise` with a
different signature). -/

/-- JS `a || d` on an optional numeric field: `undefined` and `0` both fall
back to the default `d` (JS falsiness). -/
def jsOr (o : Option ℚ) (d : ℚ) : ℚ :=
  match o with
  | none => d
  | some q => if q = 0 then d else q

/-- Noise-layer parameter block (`NoiseParams` in `types.ts`); optional
fields are `Option`. -/
structure NoiseParams where
  seed : Option ℚ
  scale : ℚ
  octaves : ℚ
  persistence : Option ℚ
  lacunarity : Option ℚ
  amplitude : Option ℚ
  baseHeight : Option ℚ
  deriving DecidableEq

/-- State of one fBm octave: (value, amplitude, frequency, maxValue). -/
def fBmStep (perm : List ℕ) (x y persistence lacunarity : ℚ)
    (st : ℚ × ℚ × ℚ × ℚ) : ℚ × ℚ × ℚ × ℚ :=
  let value := st.1
  let amplitude := st.2.1
  let frequency := st.2.2.1
  let maxValue := st.2.2.2
  (value + perlinNoise perm (x * frequency) (y * frequency) 0 * amplitude,
   amplitude * persistence, frequency * lacunarity, maxValue + amplitude)

/-- Modelled from the spec: `PerlinNoise.fBm(x, y, params)` (missing from the
sources).  Per spec §4.1 it sums `octaves` successive gradient-noise samples
at growing frequency (starting at `params.scale`, multiplied per octave by
the lacunarity growth factor) and amplitude decaying by `persistence`,
normalized by the sum of amplitudes; the octave count is clamped to ≥ 1
(spec: "`octaves=0` is invalid (must clamp to ≥1)"), and a fractional octave
count (possible after biome-boundary interpolation) runs `⌈octaves⌉`
iterations like a JS `i < octaves` loop.  `persistence`/`lacunarity` default
to 0.5/2.0 when absent; `params.seed` is not consulted (the permutation table
is fixed at construction, spec §4.1). -/
def fBm (perm : List ℕ) (x y : ℚ) (p : NoiseParams) : ℚ :=
  let octaves := max 1 (Int.toNat (Int.ceil p.octaves))
  let persistence := p.persistence.getD (1/2)
  let lacunarity := p.lacunarity.getD 2
  let st := (List.range octaves).foldl
    (fun st _ => fBmStep perm x y persistence lacunarity st) (0, 1, p.scale, 0)
  st.1 / st.2.2.2

/-! ## Data model (`types.ts`) -/

/-- An RGB color triple. -/
structure RGBColor where
  r : ℚ
  g : ℚ
  b : ℚ
  deriving DecidableEq

/-- One stop of a biome's color ramp. -/
structure ColorStop where
  stop : ℚ
  color : RGBColor
  deriving DecidableEq

/-- `MaterialProperties`: all fields optional. -/
structure MaterialProperties where
  transparency : Option ℚ := none
  reflectivity : Option ℚ := none
  emission : Option ℚ := none
  metalness : Option ℚ := none
  roughness : Option ℚ := none
  ior : Option ℚ := none
  iridescence : Option ℚ := none
  flowDirection : Option (ℚ × ℚ) := none
  isWater : Option Bool := none
  deriving DecidableEq

/-- `BiomeProfile`: a named biome with control range, noise parameters,
color ramp and optional material descriptor. -/
structure BiomeProfile where
  name : String
  controlRange : ℚ × ℚ
  terrainParams : NoiseParams
  colorRamp : List ColorStop
  material : Option MaterialProperties := none
  deriving DecidableEq

/-- `BiomeControlParams`: the control-noise channel (seed, scale, octaves). -/
structure BiomeControlParams where
  seed : ℚ
  scale : ℚ
  octaves : ℚ
  deriving DecidableEq

/-- The `global` block of `FullTerrainParameters` (skybox/lighting omitted:
they never reach the terrain engine). -/
structure GlobalParams where
  width : ℚ
  depth : ℚ
  maxHeight : ℚ
  segments : ℕ
  offset : ℚ
  deriving DecidableEq

/-- `FullTerrainParameters` restricted to the fields the engine reads. -/
structure FullTerrainParameters where
  global : GlobalParams
  biomeControl : BiomeControlParams
  biomes : List BiomeProfile
  deriving DecidableEq

/-- Convert the control block to the `NoiseParams` shape handed to `fBm`
(`this.biomeControlNoise.fBm(worldX, worldZ, controlNoise_params)`). -/
def controlNoiseParams (c : BiomeControlParams) : NoiseParams :=
  { seed := some c.seed, scale := c.scale, octaves := c.octaves,
    persistence := none, lacunarity := none, amplitude := none,
    baseHeight := none }

/-! ## Biome material classification (`terrain.ts` lines 7–68) -/

/-- The four material type constants. -/
inductive BiomeMaterialType where
  | standard
  | crystal
  | glowing
  | water
  deriving DecidableEq

/-- Derived material classification. -/
structure BiomeMaterialClassification where
  materialType : BiomeMaterialType
  priority : ℕ
  coverage : ℚ
  deriving DecidableEq

/-- `classifyBiomeMaterial(biome)`: fixed-precedence classification.  The JS
truthiness guards (`mat.transparency && mat.transparency > 0.5` etc.) are
equivalent to comparing the `|| 0` value against the threshold, since `0`,
the only falsy rational, also fails every threshold test. -/
def classifyBiomeMaterial (biome : BiomeProfile) : BiomeMaterialClassification :=
  match biome.material with
  | none => { materialType := .standard, priority := 1, coverage := 1 }
  | some mat =>
    if mat.isWater.getD false then
      { materialType := .water, priority := 8, coverage := 1 }
    else if mat.transparency.getD 0 > 1/2 ∨ mat.reflectivity.getD 0 > 3/5 ∨
        mat.iridescence.getD 0 > 1/2 then
      { materialType := .crystal, priority := 6,
        coverage := max (max (mat.transparency.getD 0) (mat.reflectivity.getD 0))
          (mat.iridescence.getD 0) }
    else if mat.emission.getD 0 > 2/5 then
      { materialType := .glowing, priority := 4, coverage := mat.emission.getD 0 }
    else
      { materialType := .standard, priority := 1, coverage := 1 }

end GameProto

namespace GameProto

/-! ## TerrainGenerator state and construction (`terrain.ts` lines 124–174) -/

/-- `terrain.ts`'s own helper: `lerp(a, b, alpha) = a * (1 - alpha) + b * alpha`. -/
def lerp (a b alpha : ℚ) : ℚ := a * (1 - alpha) + b * alpha

/-- `this.biomes.sort((a, b) => a.controlRange[0] - b.controlRange[0])`:
JS `Array.prototype.sort` is stable and this comparator orders ascending by
the control-range lower bound; modelled by a stable merge sort on `≤`. -/
def sortBiomes (biomes : List BiomeProfile) : List BiomeProfile :=
  biomes.mergeSort (fun a b => decide (a.controlRange.1 ≤ b.controlRange.1))

/-- `new PerlinNoise(seed)` with a numeric seed: `this.seed = Math.floor(s)`
and the shuffle PRNG is seeded with `this.seed >>> 0` (ToUint32). -/
def permOfSeed (seed : ℚ) : List ℕ :=
  generatePermutation ((Int.floor seed % (4294967296 : ℤ)).toNat)

/-- The engine state: the two noise instances are represented by their
permutation tables (their only observable state), plus the copied global
fields and the sorted biome list.  `mesh`/`heightMap` instance fields are
represented functionally by `heightGrid`/mesh functions below. -/
structure TerrainGenerator where
  noisePerm : List ℕ
  biomeControlPerm : List ℕ
  width : ℚ
  depth : ℚ
  maxHeight : ℚ
  segments : ℕ
  biomeControl : BiomeControlParams
  biomes : List BiomeProfile
  deriving DecidableEq

/-- The constructor.  `this.noise = new PerlinNoise()` passes *no* seed, so
that instance's permutation comes from the ambient `Math.random()` draw,
modelled as the explicit input `ambient` (the already-floored 32-bit value
`Math.floor(Math.random() * 0xffffffff)`).  `this.biomeControlNoise` is
seeded from `params.biomeControl.seed`.  The biome list is sorted in place;
in this state-passing model the engine's `biomes` field is the sorted
permutation of the caller's array (the caller's array aliases it). -/
def TerrainGenerator.mk' (params : FullTerrainParameters) (ambient : ℕ) :
    TerrainGenerator :=
  { noisePerm := generatePermutation ambient
    biomeControlPerm := permOfSeed params.biomeControl.seed
    width := params.global.width
    depth := params.global.depth
    maxHeight := params.global.maxHeight
    segments := params.global.segments
    biomeControl := params.biomeControl
    biomes := sortBiomes params.biomes }

/-- `regenerate(params)` replaces every engine field exactly as the
constructor does (fresh unseeded general noise, control noise seeded from the
new parameters, dimensions copied, biomes sorted in place) and then re-runs
generation; its state-rebuilding part therefore coincides with `mk'` with a
fresh ambient draw. -/
def TerrainGenerator.regenerate (params : FullTerrainParameters) (ambient : ℕ) :
    TerrainGenerator :=
  TerrainGenerator.mk' params ambient

/-- A placeholder standing for JS `undefined` where the source would crash:
`getBiomeInfo` reads `this.biomes[this.biomes.length - 1]` which is
`undefined` on an empty biome list (the source then throws).  Every theorem
that depends on biome values assumes a non-empty biome list. -/
def undefinedBiome : BiomeProfile where
  name := "undefined"
  controlRange := (0, 0)
  terrainParams :=
    { seed := none, scale := 0, octaves := 0, persistence := none,
      lacunarity := none, amplitude := none, baseHeight := none }
  colorRamp := []
  material := none

/-- The biome-selection loop of `getBiomeInfo`: the first biome whose
`[controlRange[0], controlRange[1])` contains the control value, paired with
its successor; `none` when no biome matches. -/
def findPrimary : List BiomeProfile → ℚ → Option (BiomeProfile × Option BiomeProfile)
  | [], _ => none
  | [b], v =>
    if b.controlRange.1 ≤ v ∧ v < b.controlRange.2 then some (b, none) else none
  | b :: b2 :: rest, v =>
    if b.controlRange.1 ≤ v ∧ v < b.controlRange.2 then some (b, some b2)
    else findPrimary (b2 :: rest) v

/-- `getBiomeInfo(worldX, worldZ)`: control-noise lookup, primary-biome
selection (falling back to the last biome), and boundary blending of all
scalar noise parameters in the 0.1-wide transition band before the primary
biome's upper boundary (`seed` taken from the primary biome, not blended). -/
def getBiomeInfo (g : TerrainGenerator) (worldX worldZ : ℚ) :
    BiomeProfile × NoiseParams :=
  let controlValue := fBm g.biomeControlPerm worldX worldZ
    (controlNoiseParams g.biomeControl)
  let found := (findPrimary g.biomes controlValue).getD
    (g.biomes.getLastD undefinedBiome, none)
  let primaryBiome := found.1
  let transitionWidth : ℚ := 1/10
  let boundary := primaryBiome.controlRange.2
  match found.2 with
  | some nextBiome =>
    if controlValue > boundary - transitionWidth then
      let alpha := (controlValue - (boundary - transitionWidth)) / transitionWidth
      let pA := primaryBiome.terrainParams
      let pB := nextBiome.terrainParams
      (primaryBiome,
        { baseHeight := some (lerp (pA.baseHeight.getD 0) (pB.baseHeight.getD 0) alpha)
          scale := lerp pA.scale pB.scale alpha
          octaves := lerp pA.octaves pB.octaves alpha
          persistence := some (lerp (jsOr pA.persistence (1/2)) (jsOr pB.persistence (1/2)) alpha)
          lacunarity := some (lerp (jsOr pA.lacunarity 2) (jsOr pB.lacunarity 2) alpha)
          amplitude := some (lerp (pA.amplitude.getD 0) (pB.amplitude.getD 0) alpha)
          seed := pA.seed })
    else (primaryBiome, primaryBiome.terrainParams)
  | none => (primaryBiome, primaryBiome.terrainParams)

/-- The parameter merge at the top of `calculateElevation`:
`{ seed: 0, persistence: 0.5, lacunarity: 2.0, amplitude: 1, baseHeight: 0,
...biomeParams }` — absent optional fields take the defaults. -/
def mergeElevationDefaults (p : NoiseParams) : NoiseParams :=
  { seed := some (p.seed.getD 0)
    scale := p.scale
    octaves := p.octaves
    persistence := some (p.persistence.getD (1/2))
    lacunarity := some (p.lacunarity.getD 2)
    amplitude := some (p.amplitude.getD 1)
    baseHeight := some (p.baseHeight.getD 0) }

/-- `calculateElevation(worldX, worldZ, biomeParams)`:
`baseHeight + fBm(worldX, worldZ, params) * amplitude` over the merged
parameters, using the engine's general-purpose (ambient-seeded) noise. -/
def calculateElevation (g : TerrainGenerator) (worldX worldZ : ℚ)
    (biomeParams : NoiseParams) : ℚ :=
  let params := mergeElevationDefaults biomeParams
  let noiseVal := fBm g.noisePerm worldX worldZ params
  params.baseHeight.getD 0 + noiseVal * (params.amplitude.getD 1)

/-- Grid index ↦ world coordinate: `(i / segments) * extent - extent / 2`. -/
def worldCoord (i : ℕ) (segments : ℕ) (extent : ℚ) : ℚ :=
  ((i : ℚ) / (segments : ℚ)) * extent - extent / 2

/-- One entry of the height map:
`heightMap[z][x] = calculateElevation(worldX, worldZ, blendedParams)`. -/
def heightEntry (g : TerrainGenerator) (z x : ℕ) : ℚ :=
  let worldX := worldCoord x g.segments g.width
  let worldZ := worldCoord z g.segments g.depth
  calculateElevation g worldX worldZ (getBiomeInfo g worldX worldZ).2

/-- The full `(segments+1) × (segments+1)` height grid (first pass of
`generateStandardTerrain` / `generateHeightMap`; `applySlopeLimiting` is a
no-op in the source and changes nothing). -/
def heightGrid (g : TerrainGenerator) : List (List ℚ) :=
  (List.range (g.segments + 1)).map (fun z =>
    (List.range (g.segments + 1)).map (fun x => heightEntry g z x))

end GameProto

namespace GameProto

/-! ## Biome color resolution (`terrain.ts` lines 234–260) -/

/-- Component-wise `lerp` on colors, as in the ramp interpolation. -/
def lerpColor (c1 c2 : RGBColor) (t : ℚ) : RGBColor :=
  { r := lerp c1.r c2.r t, g := lerp c1.g c2.g t, b := lerp c1.b c2.b t }

/-- The ramp-walking loop: scan consecutive stop pairs in order; on the first
pair with `start.stop ≤ h ≤ end.stop` return the interpolated color and stop;
if no pair matches, return the default `d` (the source initializes `color`
to the *last* stop's color before the loop). -/
def rampWalk (d : RGBColor) : List ColorStop → ℚ → RGBColor
  | s1 :: s2 :: rest, h =>
    if s1.stop ≤ h ∧ h ≤ s2.stop then
      lerpColor s1.color s2.color ((h - s1.stop) / (s2.stop - s1.stop))
    else rampWalk d (s2 :: rest) h
  | _, _ => d

/-- The magenta fallback for a missing/empty color ramp. -/
def magenta : RGBColor := { r := 1, g := 0, b := 1 }

/-- `getBiomeTerrainColor(biome, height)`: normalize the height into the
biome's `[baseHeight - amplitude, baseHeight + amplitude]` band, then walk
the ramp; an empty ramp yields magenta. -/
def getBiomeTerrainColor (biome : BiomeProfile) (height : ℚ) : RGBColor :=
  match biome.colorRamp with
  | [] => magenta
  | ramp =>
    let baseHeight := jsOr biome.terrainParams.baseHeight 0
    let amplitude := jsOr biome.terrainParams.amplitude 0
    let minBiomeHeight := baseHeight - amplitude
    let maxBiomeHeight := baseHeight + amplitude
    let normalizedHeight := (height - minBiomeHeight) / (maxBiomeHeight - minBiomeHeight)
    rampWalk (ramp.getLastD { stop := 0, color := magenta }).color ramp normalizedHeight

/-! ## Standard mesh construction (`generateStandardTerrain`, lines 282–360) -/

/-- A height-map lookup `this.heightMap[z][x]` (JS out-of-range access would
give `undefined`; the default is never taken on the generated grid). -/
def hmLookup (hm : List (List ℚ)) (z x : ℕ) : ℚ := (hm.getD z []).getD x 0

/-- Pass 2 of `generateStandardTerrain`: the flat position buffer,
`[worldX, height, worldZ]` per grid point in row-major (z outer, x inner)
order. -/
def standardPositions (g : TerrainGenerator) : List ℚ :=
  (List.range (g.segments + 1)).flatMap (fun z =>
    (List.range (g.segments + 1)).flatMap (fun x =>
      [worldCoord x g.segments g.width,
       hmLookup (heightGrid g) z x,
       worldCoord z g.segments g.depth]))

/-- The per-grid-point UV buffer `[x/segments, z/segments]`. -/
def standardUVs (segments : ℕ) : List ℚ :=
  (List.range (segments + 1)).flatMap (fun z =>
    (List.range (segments + 1)).flatMap (fun x =>
      [(x : ℚ) / (segments : ℚ), (z : ℚ) / (segments : ℚ)]))

/-- The four corner indices of grid cell `(x, z)`. -/
def cellCorners (segments z x : ℕ) : ℕ × ℕ × ℕ × ℕ :=
  (x + (segments + 1) * z,
   x + (segments + 1) * (z + 1),
   (x + 1) + (segments + 1) * (z + 1),
   (x + 1) + (segments + 1) * z)

/-- The index buffer: for each cell, triangles `(a, b, d)` and `(b, c, d)`. -/
def standardIndices (segments : ℕ) : List ℕ :=
  (List.range segments).flatMap (fun z =>
    (List.range segments).flatMap (fun x =>
      let c := cellCorners segments z x
      [c.1, c.2.1, c.2.2.2, c.2.1, c.2.2.1, c.2.2.2]))

/-! ## Vertex normals (`calculateNormals`, lines 782–829) -/

/-- A 3-vector of rationals (models `THREE.Vector3`). -/
structure Vec3 where
  x : ℚ
  y : ℚ
  z : ℚ
  deriving DecidableEq

instance : Add Vec3 := ⟨fun a b => ⟨a.x + b.x, a.y + b.y, a.z + b.z⟩⟩

instance : Zero Vec3 := ⟨⟨0, 0, 0⟩⟩

/-- `v2.sub(v1)` componentwise. -/
def Vec3.sub (a b : Vec3) : Vec3 := ⟨a.x - b.x, a.y - b.y, a.z - b.z⟩

/-- `edge1.cross(edge2)`. -/
def Vec3.cross (a b : Vec3) : Vec3 :=
  ⟨a.y * b.z - a.z * b.y, a.z * b.x - a.x * b.z, a.x * b.y - a.y * b.x⟩

/-- Squared euclidean norm. -/
def Vec3.normSq (a : Vec3) : ℚ := a.x * a.x + a.y * a.y + a.z * a.z

/-- `Math.sqrt` modelled on rationals: exact on perfect-square rationals
(componentwise floor square roots of the reduced numerator/denominator);
every concrete use in this file keeps the radicand a perfect square. -/
def ratSqrt (q : ℚ) : ℚ :=
  (Nat.sqrt q.num.toNat : ℚ) / (Nat.sqrt q.den : ℚ)

/-- `THREE.Vector3.normalize()`: divide by the length, or by 1 when the
length is zero (`divideScalar(this.length() || 1)`). -/
def Vec3.normalizeJS (a : Vec3) : Vec3 :=
  let len := ratSqrt a.normSq
  if len = 0 then a else ⟨a.x / len, a.y / len, a.z / len⟩

/-- Read vertex `i` (three consecutive floats) of a flat buffer. -/
def readVec (vertices : List ℚ) (i : ℕ) : Vec3 :=
  ⟨vertices.getD (3 * i) 0, vertices.getD (3 * i + 1) 0, vertices.getD (3 * i + 2) 0⟩

/-- The list of triangles (index triples) of a flat index buffer, taken three
at a time as in `for (let i = 0; i < indices.length; i += 3)`. -/
def triangleList : List ℕ → List (ℕ × ℕ × ℕ)
  | i1 :: i2 :: i3 :: rest => (i1, i2, i3) :: triangleList rest
  | _ => []

/-- The *normalized* face normal of a triangle, exactly as accumulated by the
source: `edge1.cross(edge2).normalize()` with `edge1 = v2 - v1`,
`edge2 = v3 - v1`. -/
def faceUnitNormal (vertices : List ℚ) (t : ℕ × ℕ × ℕ) : Vec3 :=
  let v1 := readVec vertices t.1
  let v2 := readVec vertices t.2.1
  let v3 := readVec vertices t.2.2
  ((v2.sub v1).cross (v3.sub v1)).normalizeJS

/-- The *unnormalized* cross product of the two edge vectors (the
area-weighted face normal the claim describes). -/
def faceCross (vertices : List ℚ) (t : ℕ × ℕ × ℕ) : Vec3 :=
  let v1 := readVec vertices t.1
  let v2 := readVec vertices t.2.1
  let v3 := readVec vertices t.2.2
  (v2.sub v1).cross (v3.sub v1)

/-- Add `v` into the flat accumulator at vertex `i` (the three
`normals[i*3+k] += normal.k` writes). -/
def addAt (acc : ℕ → ℚ) (i : ℕ) (v : Vec3) : ℕ → ℚ :=
  fun j =>
    if j = 3 * i then acc j + v.x
    else if j = 3 * i + 1 then acc j + v.y
    else if j = 3 * i + 2 then acc j + v.z
    else acc j

/-- The accumulation loop of `calculateNormals`: starting from the
zero-initialized buffer, add each triangle's normalized face normal into its
three vertex slots.  The flat JS array is modelled as a function `ℕ → ℚ`
(all writes are in bounds for well-formed input). -/
def accumNormals (vertices : List ℚ) (indices : List ℕ) : ℕ → ℚ :=
  (triangleList indices).foldl
    (fun acc t =>
      let n := faceUnitNormal vertices t
      addAt (addAt (addAt acc t.1 n) t.2.1 n) t.2.2 n)
    (fun _ => 0)

/-- One vertex's final normal triple (the body of the normalization loop of
`calculateNormals`): divide the accumulated triple by its length when that
length is positive, else leave it as is. -/
def normalizeChunk (acc : ℕ → ℚ) (i : ℕ) : List ℚ :=
  let v : Vec3 := ⟨acc (3 * i), acc (3 * i + 1), acc (3 * i + 2)⟩
  let len := ratSqrt v.normSq
  if len > 0 then [v.x / len, v.y / len, v.z / len] else [v.x, v.y, v.z]

/-- The final pass of `calculateNormals`: one normalized triple per vertex. -/
def normalizePass (acc : ℕ → ℚ) (numVerts : ℕ) : List ℚ :=
  (List.range numVerts).flatMap (normalizeChunk acc)

/-- `calculateNormals(vertices, indices)`: the output normal buffer (the
source mutates a caller-supplied array; the model returns it). -/
def calculateNormals (vertices : List ℚ) (indices : List ℕ) : List ℚ :=
  normalizePass (accumNormals vertices indices) (vertices.length / 3)

end GameProto

namespace GameProto

/-! ## Multi-material split (`terrain.ts` lines 362–560) -/

/-- The key set of `analyzeMaterialRequirements`: each biome's material type,
first-occurrence order, deduplicated (JS `Map` keyed by material type). -/
def requiredMaterialTypes (biomes : List BiomeProfile) : List BiomeMaterialType :=
  (biomes.map (fun b => (classifyBiomeMaterial b).materialType)).foldl
    (fun acc t => if t ∈ acc then acc else acc ++ [t]) []

/-- One material's geometry buffer set (`initializeMaterialGeometry`); the
`vertexMap` field is never read by the embedded code paths and is omitted. -/
structure MaterialGeometry where
  vertices : List ℚ
  indices : List ℕ
  normals : List ℚ
  uvs : List ℚ
  colors : List ℚ
  deriving DecidableEq

/-- The empty geometry buffer set. -/
def emptyGeometry : MaterialGeometry :=
  { vertices := [], indices := [], normals := [], uvs := [], colors := [] }

/-- `this.materialGeometries`: a `Map` over the four possible material-type
keys, modelled as one optional slot per key (the map's iteration order never
matters on the embedded paths: vertex filling writes the same data to every
slot and mesh emission walks the fixed render order). -/
structure MaterialGeometries where
  standard : Option MaterialGeometry
  crystal : Option MaterialGeometry
  glowing : Option MaterialGeometry
  water : Option MaterialGeometry
  deriving DecidableEq

/-- `map.get(t)`. -/
def MaterialGeometries.get (gs : MaterialGeometries) :
    BiomeMaterialType → Option MaterialGeometry
  | .standard => gs.standard
  | .crystal => gs.crystal
  | .glowing => gs.glowing
  | .water => gs.water

/-- `map.set(t, geo)`. -/
def MaterialGeometries.set (gs : MaterialGeometries) :
    BiomeMaterialType → MaterialGeometry → MaterialGeometries
  | .standard, geo => { gs with standard := some geo }
  | .crystal, geo => { gs with crystal := some geo }
  | .glowing, geo => { gs with glowing := some geo }
  | .water, geo => { gs with water := some geo }

/-- `initializeMaterialGeometries()`: clear, create one empty buffer set per
required material type, then ensure a `standard` fallback slot exists. -/
def initializeMaterialGeometries (biomes : List BiomeProfile) : MaterialGeometries :=
  let cleared : MaterialGeometries :=
    { standard := none, crystal := none, glowing := none, water := none }
  let withRequired := (requiredMaterialTypes biomes).foldl
    (fun gs t => gs.set t emptyGeometry) cleared
  match withRequired.standard with
  | some _ => withRequired
  | none => withRequired.set .standard emptyGeometry

/-- `getVertexMaterialType(worldX, worldZ)` (the method of
`TerrainGenerator`): material type of the primary biome at the position. -/
def getVertexMaterialType (g : TerrainGenerator) (worldX worldZ : ℚ) :
    BiomeMaterialType :=
  (classifyBiomeMaterial (getBiomeInfo g worldX worldZ).1).materialType

/-- The placeholder normals pushed by `generateMaterialSpecificVertices`
(`(0, 1, 0)` per grid point). -/
def placeholderNormals (segments : ℕ) : List ℚ :=
  (List.range (segments + 1)).flatMap (fun _ =>
    (List.range (segments + 1)).flatMap (fun _ => [0, 1, 0]))

/-- `generateMaterialSpecificVertices()`: every grid point's position, a
placeholder normal and its UV are pushed into *every* existing geometry
(the loop pushes identical data into each map entry, so the result per slot
is the full shared buffer). -/
def generateMaterialSpecificVertices (g : TerrainGenerator)
    (gs : MaterialGeometries) : MaterialGeometries :=
  let fill : Option MaterialGeometry → Option MaterialGeometry :=
    fun s => s.map (fun geo =>
      { geo with vertices := geo.vertices ++ standardPositions g,
                 normals := geo.normals ++ placeholderNormals g.segments,
                 uvs := geo.uvs ++ standardUVs g.segments })
  { standard := fill gs.standard, crystal := fill gs.crystal,
    glowing := fill gs.glowing, water := fill gs.water }

/-- The cell list of the index loop: `z` outer, `x` inner, both `< segments`. -/
def cellList (segments : ℕ) : List (ℕ × ℕ) :=
  (List.range segments).flatMap (fun z =>
    (List.range segments).map (fun x => (z, x)))

/-- One iteration of `generateMaterialSpecificIndices`: classify the cell by
its centroid and append the two triangles' indices to that material's
geometry (if such a geometry exists; `if (geometry)` in the source). -/
def splitIndicesStep (g : TerrainGenerator) (gs : MaterialGeometries)
    (cell : ℕ × ℕ) : MaterialGeometries :=
  let z := cell.1
  let x := cell.2
  let c := cellCorners g.segments z x
  let centerX := ((x : ℚ) + 1/2) / (g.segments : ℚ) * g.width - g.width / 2
  let centerZ := ((z : ℚ) + 1/2) / (g.segments : ℚ) * g.depth - g.depth / 2
  let quadMaterialType := getVertexMaterialType g centerX centerZ
  match gs.get quadMaterialType with
  | some geo =>
    gs.set quadMaterialType
      { geo with indices := geo.indices ++ [c.1, c.2.1, c.2.2.2, c.2.1, c.2.2.1, c.2.2.2] }
  | none => gs

/-- `generateMaterialSpecificIndices()`: fold the per-cell step over all
cells. -/
def generateMaterialSpecificIndices (g : TerrainGenerator)
    (gs : MaterialGeometries) : MaterialGeometries :=
  (cellList g.segments).foldl (splitIndicesStep g) gs

/-- The geometry map produced by the multi-material pipeline (steps 2–4 of
`generateMultiMaterialTerrain`; heightmap generation is `heightGrid`). -/
def materialGeometriesOf (g : TerrainGenerator) : MaterialGeometries :=
  generateMaterialSpecificIndices g
    (generateMaterialSpecificVertices g (initializeMaterialGeometries g.biomes))

/-- The fixed render order of `createMaterialMeshes`. -/
def renderOrder : List BiomeMaterialType :=
  [.standard, .glowing, .water, .crystal]

/-- `createMaterialMeshes()`: walk the render order and emit one sub-mesh per
material type whose geometry exists and has a non-empty *vertex* buffer
(`if (!geometryData || geometryData.vertices.length === 0) continue;`). -/
def createMaterialMeshes (g : TerrainGenerator) :
    List (BiomeMaterialType × MaterialGeometry) :=
  renderOrder.filterMap (fun t =>
    match (materialGeometriesOf g).get t with
    | none => none
    | some geo => if geo.vertices.length = 0 then none else some (t, geo))

/-! ## Height query (`getHeightAtPosition`, lines 831–859) -/

/-- `getHeightAtPosition(x, z)`: map to fractional grid coordinates, clamp to
`[0, segments]`, and bilinearly interpolate the four surrounding height-map
entries (missing rows/entries read as 0). -/
def getHeightAtPosition (width depth : ℚ) (segments : ℕ)
    (heightMap : List (List ℚ)) (x z : ℚ) : ℚ :=
  let gridX := (x + width / 2) / width * (segments : ℚ)
  let gridZ := (z + depth / 2) / depth * (segments : ℚ)
  let clampedX := max 0 (min (segments : ℚ) gridX)
  let clampedZ := max 0 (min (segments : ℚ) gridZ)
  let x0 := Int.floor clampedX
  let z0 := Int.floor clampedZ
  let x1 := min (segments : ℤ) (x0 + 1)
  let z1 := min (segments : ℤ) (z0 + 1)
  let fx := clampedX - x0
  let fz := clampedZ - z0
  let h00 := hmLookup heightMap z0.toNat x0.toNat
  let h10 := hmLookup heightMap z0.toNat x1.toNat
  let h01 := hmLookup heightMap z1.toNat x0.toNat
  let h11 := hmLookup heightMap z1.toNat x1.toNat
  let h0 := h00 * (1 - fx) + h10 * fx
  let h1 := h01 * (1 - fx) + h11 * fx
  h0 * (1 - fz) + h1 * fz

end GameProto

namespace GameProto

/-! ## Reference definitions used to state the claims -/

/-- Scalar multiple of a `Vec3`. -/
def Vec3.scale (q : ℚ) (v : Vec3) : Vec3 := ⟨q * v.x, q * v.y, q * v.z⟩

/-- How many of a triangle's three corners are vertex `v` (the number of
times the source adds the face normal into `v`'s accumulator). -/
def cornerMultiplicity (v : ℕ) (t : ℕ × ℕ × ℕ) : ℕ :=
  (if t.1 = v then 1 else 0) + (if t.2.1 = v then 1 else 0) +
    (if t.2.2 = v then 1 else 0)

/-- The accumulated (pre-normalization) normal of vertex `v` as a `Vec3`,
read back out of the source's flat accumulator. -/
def accumVec (vertices : List ℚ) (indices : List ℕ) (v : ℕ) : Vec3 :=
  let acc := accumNormals vertices indices
  ⟨acc (3 * v), acc (3 * v + 1), acc (3 * v + 2)⟩

/-- Reference: per-vertex sum of the *normalized* face normals of the
incident triangles (counted with corner multiplicity). -/
def unitNormalSum (vertices : List ℚ) (indices : List ℕ) (v : ℕ) : Vec3 :=
  (triangleList indices).foldl
    (fun s t => s + Vec3.scale (cornerMultiplicity v t : ℚ) (faceUnitNormal vertices t)) 0

/-- Reference (the claim's statement): per-vertex sum of the *unnormalized*
edge-vector cross products (area-weighted face normals) of the incident
triangles. -/
def areaNormalSum (vertices : List ℚ) (indices : List ℕ) (v : ℕ) : Vec3 :=
  (triangleList indices).foldl
    (fun s t => s + Vec3.scale (cornerMultiplicity v t : ℚ) (faceCross vertices t)) 0

/-- Index-buffer length of one material slot (0 for an absent slot). -/
def slotIndexLength (gs : MaterialGeometries) (t : BiomeMaterialType) : ℕ :=
  match gs.get t with
  | none => 0
  | some geo => geo.indices.length

/-- Total index entries across the four material slots. -/
def totalIndexLength (gs : MaterialGeometries) : ℕ :=
  slotIndexLength gs .standard + slotIndexLength gs .crystal +
    slotIndexLength gs .glowing + slotIndexLength gs .water

/-! ## Concrete inputs used by counterexamples and witnesses -/

/-- A noise parameter block with every optional field present. -/
def npFlat : NoiseParams where
  seed := some 0
  scale := 1/2
  octaves := 1
  persistence := some (1/2)
  lacunarity := some 2
  amplitude := some 1
  baseHeight := some 0

/-- A single plain biome covering the whole control range. -/
def onlyBiome : BiomeProfile where
  name := "only"
  controlRange := (-1, 1)
  terrainParams := npFlat
  colorRamp := [⟨0, ⟨0, 0, 0⟩⟩]
  material := none

/-- A minimal full parameter structure: one biome, a 1-segment 2×2 world. -/
def P1 : FullTerrainParameters where
  global := ⟨2, 2, 1, 1, 0⟩
  biomeControl := ⟨7, 1, 1⟩
  biomes := [onlyBiome]

/-- A single water biome (same extents as `P1`). -/
def waterBiome : BiomeProfile where
  name := "sea"
  controlRange := (-1, 1)
  terrainParams := npFlat
  colorRamp := [⟨0, ⟨0, 0, 1⟩⟩]
  material := some { isWater := some true }

/-- Parameters whose only biome is water: the multi-material path initializes
a `water` slot plus the `standard` fallback slot, and every cell's triangles
go to `water`. -/
def P4 : FullTerrainParameters where
  global := ⟨2, 2, 1, 1, 0⟩
  biomeControl := ⟨7, 1, 1⟩
  biomes := [waterBiome]

/-- A biome with a two-stop color ramp (red at 1/5, blue at 4/5) over the
height band `[-1, 1]`. -/
def rampBiome : BiomeProfile where
  name := "ramp"
  controlRange := (0, 1)
  terrainParams := npFlat
  colorRamp := [⟨1/5, ⟨1, 0, 0⟩⟩, ⟨4/5, ⟨0, 0, 1⟩⟩]
  material := none

/-- One triangle, axis-aligned, of area 2: cross product `(0, -4, 0)`. -/
def triVerts : List ℚ := [0, 0, 0, 2, 0, 0, 0, 0, 2]

/-- Index buffer of the single triangle. -/
def triIdx : List ℕ := [0, 1, 2]

/-- A material descriptor that is both water and strongly emissive. -/
def matWaterEmissive : MaterialProperties where
  emission := some (9/10)
  isWater := some true

/-- A biome marked `isWater: true` *and* `emission: 0.9`. -/
def waterEmissiveBiome : BiomeProfile where
  name := "glow-sea"
  controlRange := (-1, 1)
  terrainParams := npFlat
  colorRamp := [⟨0, ⟨0, 0, 1⟩⟩]
  material := some matWaterEmissive

/-- A concrete 2×2 height map for the height-query witness. -/
def hmSample : List (List ℚ) := [[5, 6], [7, 8]]

/-- The permutation table `generatePermutation 0` (ambient seed 0), as an explicit literal. -/
def pTable0 : List ℕ :=
  [242, 66, 69, 165, 41, 35, 67, 223, 130, 166, 162, 110, 219, 30, 109, 37, 21, 210, 58, 253,
  63, 222, 255, 158, 248, 139, 245, 211, 3, 96, 116, 12, 142, 145, 121, 71, 171, 184, 46, 243,
  85, 167, 189, 84, 24, 18, 250, 154, 213, 49, 179, 192, 216, 13, 95, 62, 9, 177, 156, 103, 241,
  224, 212, 150, 218, 10, 48, 25, 87, 44, 140, 104, 147, 138, 125, 197, 133, 31, 247, 181, 127,
  204, 128, 54, 238, 90, 252, 187, 234, 50, 114, 79, 208, 251, 74, 186, 229, 148, 178, 122, 131,
  19, 207, 244, 182, 5, 230, 129, 221, 59, 231, 240, 106, 198, 26, 77, 51, 112, 185, 215, 173,
  217, 196, 163, 199, 64, 88, 29, 180, 120, 232, 168, 237, 105, 157, 175, 16, 144, 7, 141, 226,
  119, 11, 200, 92, 2, 233, 115, 82, 39, 91, 206, 61, 70, 53, 86, 172, 123, 27, 214, 151, 42,
  225, 188, 101, 32, 201, 202, 228, 52, 34, 124, 100, 8, 249, 98, 137, 194, 6, 239, 227, 40, 17,
  246, 152, 134, 47, 14, 164, 89, 169, 190, 205, 65, 146, 254, 33, 1, 15, 97, 94, 195, 78, 4,
  132, 43, 83, 80, 111, 108, 203, 160, 155, 102, 93, 176, 73, 38, 235, 76, 55, 72, 236, 45, 118,
  170, 22, 81, 107, 126, 209, 183, 20, 75, 191, 57, 28, 135, 149, 193, 159, 174, 99, 220, 23,
  60, 143, 113, 161, 153, 136, 117, 36, 56, 0, 68, 242, 66, 69, 165, 41, 35, 67, 223, 130, 166,
  162, 110, 219, 30, 109, 37, 21, 210, 58, 253, 63, 222, 255, 158, 248, 139, 245, 211, 3, 96,
  116, 12, 142, 145, 121, 71, 171, 184, 46, 243, 85, 167, 189, 84, 24, 18, 250, 154, 213, 49,
  179, 192, 216, 13, 95, 62, 9, 177, 156, 103, 241, 224, 212, 150, 218, 10, 48, 25, 87, 44, 140,
  104, 147, 138, 125, 197, 133, 31, 247, 181, 127, 204, 128, 54, 238, 90, 252, 187, 234, 50,
  114, 79, 208, 251, 74, 186, 229, 148, 178, 122, 131, 19, 207, 244, 182, 5, 230, 129, 221, 59,
  231, 240, 106, 198, 26, 77, 51, 112, 185, 215, 173, 217, 196, 163, 199, 64, 88, 29, 180, 120,
  232, 168, 237, 105, 157, 175, 16, 144, 7, 141, 226, 119, 11, 200, 92, 2, 233, 115, 82, 39, 91,
  206, 61, 70, 53, 86, 172, 123, 27, 214, 151, 42, 225, 188, 101, 32, 201, 202, 228, 52, 34,
  124, 100, 8, 249, 98, 137, 194, 6, 239, 227, 40, 17, 246, 152, 134, 47, 14, 164, 89, 169, 190,
  205, 65, 146, 254, 33, 1, 15, 97, 94, 195, 78, 4, 132, 43, 83, 80, 111, 108, 203, 160, 155,
  102, 93, 176, 73, 38, 235, 76, 55, 72, 236, 45, 118, 170, 22, 81, 107, 126, 209, 183, 20, 75,
  191, 57, 28, 135, 149, 193, 159, 174, 99, 220, 23, 60, 143, 113, 161, 153, 136, 117, 36, 56,
  0, 68]

/-- The permutation table `generatePermutation 1` (ambient seed 1), as an explicit literal. -/
def pTable1 : List ℕ :=
  [104, 132, 173, 3, 17, 75, 85, 14, 15, 68, 40, 187, 63, 72, 170, 126, 110, 100, 205, 109, 97,
  66, 230, 79, 25, 223, 200, 41, 90, 189, 142, 73, 159, 157, 224, 206, 134, 211, 65, 209, 226,
  116, 229, 83, 232, 139, 45, 221, 103, 35, 94, 168, 247, 196, 6, 201, 145, 199, 58, 88, 124,
  218, 164, 217, 91, 204, 11, 192, 95, 64, 162, 178, 152, 20, 242, 158, 62, 5, 233, 84, 120,
  102, 76, 1, 51, 185, 239, 176, 188, 38, 253, 2, 60, 241, 186, 246, 77, 74, 130, 118, 197, 207,
  234, 54, 237, 151, 87, 238, 144, 42, 86, 143, 8, 128, 212, 112, 135, 31, 194, 36, 148, 28, 82,
  249, 195, 114, 39, 113, 191, 216, 214, 255, 12, 180, 156, 108, 227, 34, 172, 121, 155, 169,
  140, 4, 210, 254, 127, 141, 147, 240, 251, 213, 80, 78, 18, 222, 106, 228, 208, 193, 19, 220,
  198, 107, 23, 48, 149, 50, 27, 46, 203, 138, 13, 92, 215, 115, 57, 71, 21, 69, 29, 177, 24,
  174, 125, 30, 131, 175, 96, 167, 56, 166, 7, 22, 182, 163, 236, 137, 183, 190, 231, 61, 81,
  146, 202, 49, 252, 129, 10, 55, 26, 122, 154, 32, 53, 89, 250, 243, 165, 52, 219, 225, 101,
  161, 43, 171, 123, 150, 47, 235, 184, 136, 99, 9, 44, 67, 181, 93, 16, 117, 37, 59, 98, 33,
  119, 111, 245, 105, 179, 153, 70, 244, 248, 133, 0, 160, 104, 132, 173, 3, 17, 75, 85, 14, 15,
  68, 40, 187, 63, 72, 170, 126, 110, 100, 205, 109, 97, 66, 230, 79, 25, 223, 200, 41, 90, 189,
  142, 73, 159, 157, 224, 206, 134, 211, 65, 209, 226, 116, 229, 83, 232, 139, 45, 221, 103, 35,
  94, 168, 247, 196, 6, 201, 145, 199, 58, 88, 124, 218, 164, 217, 91, 204, 11, 192, 95, 64,
  162, 178, 152, 20, 242, 158, 62, 5, 233, 84, 120, 102, 76, 1, 51, 185, 239, 176, 188, 38, 253,
  2, 60, 241, 186, 246, 77, 74, 130, 118, 197, 207, 234, 54, 237, 151, 87, 238, 144, 42, 86,
  143, 8, 128, 212, 112, 135, 31, 194, 36, 148, 28, 82, 249, 195, 114, 39, 113, 191, 216, 214,
  255, 12, 180, 156, 108, 227, 34, 172, 121, 155, 169, 140, 4, 210, 254, 127, 141, 147, 240,
  251, 213, 80, 78, 18, 222, 106, 228, 208, 193, 19, 220, 198, 107, 23, 48, 149, 50, 27, 46,
  203, 138, 13, 92, 215, 115, 57, 71, 21, 69, 29, 177, 24, 174, 125, 30, 131, 175, 96, 167, 56,
  166, 7, 22, 182, 163, 236, 137, 183, 190, 231, 61, 81, 146, 202, 49, 252, 129, 10, 55, 26,
  122, 154, 32, 53, 89, 250, 243, 165, 52, 219, 225, 101, 161, 43, 171, 123, 150, 47, 235, 184,
  136, 99, 9, 44, 67, 181, 93, 16, 117, 37, 59, 98, 33, 119, 111, 245, 105, 179, 153, 70, 244,
  248, 133, 0, 160]
end GameProto

namespace GameProto

/-! ## Theorems -/

/-- C5: evaluating `fractalNoise` at the failing input `octaves = 0`: the
loop never runs, `maxValue` stays 0, and `value / maxValue` is `0/0 = NaN`
(`none`), for every permutation table, coordinate pair, persistence and
scale.  The source performs no clamping of `octaves` or `persistence`, so
the claimed always-finite behaviour fails exactly here. -/
theorem fractalNoise_octaves_zero_NaN (perm : List ℕ) (x y persistence scale : ℚ) :
    fractalNoise perm x y 0 persistence scale = none := by
  simp [fractalNoise]

/-- C9: material classification follows the fixed precedence order: a
missing descriptor is standard (priority 1); `isWater` wins outright
(priority 8) regardless of every other field; otherwise transparency > 0.5,
reflectivity > 0.6 or iridescence > 0.5 gives crystal (priority 6);
otherwise emission > 0.4 gives glowing (priority 4); otherwise standard
(priority 1). -/
theorem classifyBiomeMaterial_precedence (b : BiomeProfile) :
    (b.material = none →
      classifyBiomeMaterial b =
        { materialType := .standard, priority := 1, coverage := 1 }) ∧
    ∀ m, b.material = some m →
      ((m.isWater.getD false = true →
        (classifyBiomeMaterial b).materialType = .water ∧
        (classifyBiomeMaterial b).priority = 8) ∧
      (m.isWater.getD false = false →
        (m.transparency.getD 0 > 1/2 ∨ m.reflectivity.getD 0 > 3/5 ∨
          m.iridescence.getD 0 > 1/2) →
        (classifyBiomeMaterial b).materialType = .crystal ∧
        (classifyBiomeMaterial b).priority = 6) ∧
      (m.isWater.getD false = false →
        ¬(m.transparency.getD 0 > 1/2 ∨ m.reflectivity.getD 0 > 3/5 ∨
          m.iridescence.getD 0 > 1/2) →
        m.emission.getD 0 > 2/5 →
        (classifyBiomeMaterial b).materialType = .glowing ∧
        (classifyBiomeMaterial b).priority = 4) ∧
      (m.isWater.getD false = false →
        ¬(m.transparency.getD 0 > 1/2 ∨ m.reflectivity.getD 0 > 3/5 ∨
          m.iridescence.getD 0 > 1/2) →
        ¬(m.emission.getD 0 > 2/5) →
        (classifyBiomeMaterial b).materialType = .standard ∧
        (classifyBiomeMaterial b).priority = 1)) := by
  constructor
  · intro h
    simp [classifyBiomeMaterial, h]
  · intro m hm
    refine ⟨fun hw => ?_, fun hw hsig => ?_, fun hw hsig hem => ?_,
      fun hw hsig hem => ?_⟩
    · simp [classifyBiomeMaterial, hm, hw]
    · simp only [classifyBiomeMaterial, hm, hw, Bool.false_eq_true, if_false]
      rw [if_pos (by simpa using hsig)]
      exact ⟨rfl, rfl⟩
    · simp only [classifyBiomeMaterial, hm, hw, Bool.false_eq_true, if_false]
      rw [if_neg (by simpa using hsig), if_pos (by simpa using hem)]
      exact ⟨rfl, rfl⟩
    · simp only [classifyBiomeMaterial, hm, hw, Bool.false_eq_true, if_false]
      rw [if_neg (by simpa using hsig), if_neg (by simpa using hem)]
      exact ⟨rfl, rfl⟩

/-- Witness for C9 at the claim's own test case: a biome with both
`isWater: true` and `emission: 0.9` classifies as water with priority 8
(water's priority 8 beats glowing's 4). -/
theorem classifyBiomeMaterial_precedence_witness :
    waterEmissiveBiome.material = some matWaterEmissive ∧
    (classifyBiomeMaterial waterEmissiveBiome).materialType = .water ∧
    (classifyBiomeMaterial waterEmissiveBiome).priority = 8 :=
  ⟨rfl,
    ((classifyBiomeMaterial_precedence waterEmissiveBiome).2 matWaterEmissive
      rfl).1 rfl⟩

/-- C10: both the constructor and `regenerate` sort the biome list ascending
by the lower bound of `controlRange` (the engine's list — which the caller's
`params.biomes` array aliases after the in-place `sort` — is a sorted
permutation of the input list). -/
theorem biomes_sorted_and_permuted (P : FullTerrainParameters) (ambient : ℕ) :
    ((TerrainGenerator.mk' P ambient).biomes.Pairwise
      (fun a b => a.controlRange.1 ≤ b.controlRange.1) ∧
     (TerrainGenerator.mk' P ambient).biomes.Perm P.biomes) ∧
    ((TerrainGenerator.regenerate P ambient).biomes.Pairwise
      (fun a b => a.controlRange.1 ≤ b.controlRange.1) ∧
     (TerrainGenerator.regenerate P ambient).biomes.Perm P.biomes) := by
  have hs : (sortBiomes P.biomes).Pairwise
      (fun a b => a.controlRange.1 ≤ b.controlRange.1) := by
    have := @List.sorted_mergeSort BiomeProfile
      (fun a b : BiomeProfile => decide (a.controlRange.1 ≤ b.controlRange.1))
      (fun a b c hab hbc => by
        simp only [decide_eq_true_eq] at hab hbc ⊢
        exact le_trans hab hbc)
      (fun a b => by
        simp only [Bool.or_eq_true, decide_eq_true_eq]
        exact le_total a.controlRange.1 b.controlRange.1)
      P.biomes
    exact this.imp (by simp)
  have hp : (sortBiomes P.biomes).Perm P.biomes := List.mergeSort_perm P.biomes _
  exact ⟨⟨hs, hp⟩, ⟨hs, hp⟩⟩

end GameProto

namespace GameProto

/-- Length of a `flatMap` whose pieces all have the same length. -/
theorem length_flatMap_const {α β : Type} (l : List α) (f : α → List β) (k : ℕ)
    (h : ∀ a ∈ l, (f a).length = k) : (l.flatMap f).length = l.length * k := by
  induction l with
  | nil => simp
  | cons a t ih =>
    simp only [List.flatMap_cons, List.length_append, List.length_cons]
    rw [h a (by simp), ih (fun b hb => h b (by simp [hb]))]
    ring

/-- Length of a doubly-nested `flatMap` over ranges with constant-size
pieces. -/
theorem length_flatMap_flatMap_const {α : Type} (n m k : ℕ) (f : ℕ → ℕ → List α)
    (h : ∀ z x, (f z x).length = k) :
    ((List.range n).flatMap (fun z =>
      (List.range m).flatMap (fun x => f z x))).length = n * m * k := by
  rw [length_flatMap_const (List.range n) _ (m * k)]
  · simp [Nat.mul_assoc]
  · intro a _
    rw [length_flatMap_const (List.range m) _ k]
    · simp
    · intro b _
      exact h a b

/-- C7: for `segments = N ≥ 1` the standard path produces a position buffer
of exactly `3·(N+1)²` floats (`(N+1)²` vertices), an index buffer of exactly
`6·N²` entries, and every index is `< (N+1)²`. -/
theorem standardTerrain_buffer_sizes (P : FullTerrainParameters) (ambient : ℕ)
    (hN : 1 ≤ P.global.segments) :
    (standardPositions (TerrainGenerator.mk' P ambient)).length
        = 3 * (P.global.segments + 1)^2 ∧
    (standardIndices P.global.segments).length = 6 * P.global.segments^2 ∧
    ∀ e ∈ standardIndices P.global.segments, e < (P.global.segments + 1)^2 := by
  set N := P.global.segments with hNdef
  refine ⟨?_, ?_, ?_⟩
  · simp only [standardPositions]
    refine (length_flatMap_flatMap_const (N+1) (N+1) 3 _ ?_).trans (by ring)
    intro z x
    rfl
  · simp only [standardIndices]
    refine (length_flatMap_flatMap_const N N 6 _ ?_).trans (by ring)
    intro z x
    rfl
  · intro e he
    simp only [standardIndices, List.mem_flatMap, List.mem_range] at he
    obtain ⟨z, hz, x, hx, he⟩ := he
    simp only [cellCorners, List.mem_cons, List.not_mem_nil, or_false] at he
    rcases he with h | h | h | h | h | h <;> subst h <;> nlinarith

/-- Witness for C7 at `P1` (`segments = 1`): 4 vertices (12 floats), 6
indices, all `< 4`. -/
theorem standardTerrain_buffer_sizes_witness :
    1 ≤ P1.global.segments ∧
    ((standardPositions (TerrainGenerator.mk' P1 0)).length
        = 3 * (P1.global.segments + 1)^2 ∧
    (standardIndices P1.global.segments).length = 6 * P1.global.segments^2 ∧
    ∀ e ∈ standardIndices P1.global.segments, e < (P1.global.segments + 1)^2) :=
  ⟨Nat.le_refl 1, standardTerrain_buffer_sizes P1 0 (Nat.le_refl 1)⟩

end GameProto

namespace GameProto

/-- C8: querying the height surface at the exact world coordinates of grid
point `(gx, gz)` returns the stored height-map entry `heightMap[gz][gx]`
(in the exact-rational model the bilinear interpolation degenerates to
equality: both fractional parts are zero). -/
theorem heightQuery_grid_roundtrip (width depth : ℚ) (segments : ℕ)
    (hm : List (List ℚ)) (gx gz : ℕ)
    (hw : 0 < width) (hd : 0 < depth) (hN : 1 ≤ segments)
    (hgx : gx ≤ segments) (hgz : gz ≤ segments) :
    getHeightAtPosition width depth segments hm
      (worldCoord gx segments width) (worldCoord gz segments depth)
      = hmLookup hm gz gx := by
  have hs0 : 0 < segments := hN
  have hsne : (segments : ℚ) ≠ 0 := by
    have : segments ≠ 0 := by omega
    exact_mod_cast this
  have hgridx : (worldCoord gx segments width + width / 2) / width * (segments : ℚ)
      = (gx : ℚ) := by
    unfold worldCoord
    field_simp
    ring
  have hgridz : (worldCoord gz segments depth + depth / 2) / depth * (segments : ℚ)
      = (gz : ℚ) := by
    unfold worldCoord
    field_simp
    ring
  simp only [getHeightAtPosition, hgridx, hgridz]
  have hclx : max 0 (min (segments : ℚ) (gx : ℚ)) = (gx : ℚ) := by
    rw [min_eq_right (by exact_mod_cast hgx), max_eq_right (by positivity)]
  have hclz : max 0 (min (segments : ℚ) (gz : ℚ)) = (gz : ℚ) := by
    rw [min_eq_right (by exact_mod_cast hgz), max_eq_right (by positivity)]
  rw [hclx, hclz, Int.floor_natCast, Int.floor_natCast]
  simp [Int.toNat_natCast]

/-- Witness for C8: a 2×2 height map on a 1-segment 2×2 world; querying the
world position of grid point `(x, z) = (1, 0)` returns `heightMap[0][1]`. -/
theorem heightQuery_grid_roundtrip_witness :
    (0 : ℚ) < 2 ∧ 1 ≤ 1 ∧
    getHeightAtPosition 2 2 1 hmSample (worldCoord 1 1 2) (worldCoord 0 1 2)
      = hmLookup hmSample 0 1 :=
  ⟨by norm_num, Nat.le_refl 1,
    heightQuery_grid_roundtrip 2 2 1 hmSample 1 0 (by norm_num) (by norm_num)
      (Nat.le_refl 1) (Nat.le_refl 1) (Nat.zero_le 1)⟩

end GameProto

namespace GameProto

/-- `lerpColor` at `t = 0` returns the first color. -/
theorem lerpColor_zero (a b : RGBColor) : lerpColor a b 0 = a := by
  simp [lerpColor, lerp]

/-- `lerpColor` at `t = 1` returns the second color. -/
theorem lerpColor_one (a b : RGBColor) : lerpColor a b 1 = b := by
  simp [lerpColor, lerp]

/-- Below the first stop the ramp walk falls through every pair and returns
the default. -/
theorem rampWalk_below (d : RGBColor) :
    ∀ (ramp : List ColorStop) (nh : ℚ),
      ramp.Pairwise (fun a b => a.stop < b.stop) →
      (∀ h : ramp ≠ [], nh < (ramp.head h).stop) →
      rampWalk d ramp nh = d
  | [], _, _, _ => rfl
  | [_], _, _, _ => rfl
  | s1 :: s2 :: rest, nh, hp, hlt => by
    have h1 : nh < s1.stop := hlt (by simp)
    rw [rampWalk, if_neg (by push_neg; intro hc; exact absurd hc (not_le.mpr h1))]
    exact rampWalk_below d (s2 :: rest) nh hp.of_cons
      (fun _ => lt_trans h1 (List.rel_of_pairwise_cons hp (by simp)))

/-- Every stop of a strictly-ascending ramp is at most the last stop. -/
theorem stop_le_getLast :
    ∀ (ramp : List ColorStop) (h : ramp ≠ []),
      ramp.Pairwise (fun a b => a.stop < b.stop) →
      ∀ s ∈ ramp, s.stop ≤ (ramp.getLast h).stop
  | [], h, _, _ => absurd rfl h
  | [a], _, _, s => by
    intro hs
    simp at hs
    simp [hs, List.getLast]
  | s1 :: s2 :: rest, _, hp, s => by
    intro hs
    rw [List.getLast_cons (by simp)]
    rcases List.mem_cons.mp hs with h | h
    · subst h
      exact le_of_lt (lt_of_lt_of_le (List.rel_of_pairwise_cons hp (by simp))
        (stop_le_getLast (s2 :: rest) (by simp) hp.of_cons s2 (by simp)))
    · exact stop_le_getLast (s2 :: rest) (by simp) hp.of_cons s h

/-- Above the last stop the ramp walk falls through every pair and returns
the default. -/
theorem rampWalk_above (d : RGBColor) :
    ∀ (ramp : List ColorStop) (nh : ℚ),
      ramp.Pairwise (fun a b => a.stop < b.stop) →
      (∀ h : ramp ≠ [], (ramp.getLast h).stop < nh) →
      rampWalk d ramp nh = d
  | [], _, _, _ => rfl
  | [_], _, _, _ => rfl
  | s1 :: s2 :: rest, nh, hp, hlt => by
    have hlast : (( s1 :: s2 :: rest).getLast (by simp)).stop < nh := hlt (by simp)
    rw [List.getLast_cons (by simp)] at hlast
    have h2 : s2.stop < nh :=
      lt_of_le_of_lt (stop_le_getLast (s2 :: rest) (by simp) hp.of_cons s2 (by simp)) hlast
    rw [rampWalk, if_neg (fun hc => absurd hc.2 (not_le.mpr h2))]
    exact rampWalk_above d (s2 :: rest) nh hp.of_cons (fun _ => hlast)

/-- The central segment lemma: if `nh` lies in the closed segment between
stops `i` and `i+1`, the ramp walk returns the linear interpolation on that
segment (at a shared endpoint the two adjacent segments agree, so the
statement also holds when an earlier pair catches `nh = sᵢ`). -/
theorem rampWalk_seg (d : RGBColor) :
    ∀ (ramp : List ColorStop) (nh : ℚ) (i : ℕ) (hi : i + 1 < ramp.length),
      ramp.Pairwise (fun a b => a.stop < b.stop) →
      (ramp.get ⟨i, Nat.lt_of_succ_lt hi⟩).stop ≤ nh →
      nh ≤ (ramp.get ⟨i + 1, hi⟩).stop →
      rampWalk d ramp nh =
        lerpColor (ramp.get ⟨i, Nat.lt_of_succ_lt hi⟩).color
          (ramp.get ⟨i + 1, hi⟩).color
          ((nh - (ramp.get ⟨i, Nat.lt_of_succ_lt hi⟩).stop) /
            ((ramp.get ⟨i + 1, hi⟩).stop - (ramp.get ⟨i, Nat.lt_of_succ_lt hi⟩).stop))
  | [], _, i, hi => by simp at hi
  | [_], _, i, hi => by simp at hi
  | s1 :: s2 :: rest, nh, 0, hi => by
    intro hp hle hge
    simp only [List.get] at hle hge ⊢
    rw [rampWalk, if_pos ⟨hle, hge⟩]
  | s1 :: s2 :: rest, nh, j + 1, hi => by
    intro hp hle hge
    have hs12 : s1.stop < s2.stop := List.rel_of_pairwise_cons hp (by simp)
    have hle2 : ((s2 :: rest).get ⟨j, Nat.lt_of_succ_lt (Nat.lt_of_succ_lt_succ hi)⟩).stop ≤ nh := hle
    have hge2 : nh ≤ ((s2 :: rest).get ⟨j + 1, Nat.lt_of_succ_lt_succ hi⟩).stop := hge
    by_cases htest : s1.stop ≤ nh ∧ nh ≤ s2.stop
    · -- the first pair catches `nh`; this forces `nh = s₂.stop` and `j = 0`
      have hj0 : j = 0 := by
        by_contra hj
        obtain ⟨k, hk⟩ := Nat.exists_eq_succ_of_ne_zero hj
        subst hk
        have hmem : ((s2 :: rest).get
            ⟨k + 1, Nat.lt_of_succ_lt (Nat.lt_of_succ_lt_succ hi)⟩) ∈ rest :=
          List.get_mem rest k _
        have hlt := List.rel_of_pairwise_cons hp.of_cons hmem
        exact absurd (lt_of_le_of_lt (le_trans hle2 htest.2) hlt) (lt_irrefl _)
      subst hj0
      have hnh : nh = s2.stop := le_antisymm htest.2 hle2
      rw [rampWalk, if_pos htest]
      have ht1 : (nh - s1.stop) / (s2.stop - s1.stop) = 1 := by
        rw [hnh]
        exact div_self (ne_of_gt (sub_pos.mpr hs12))
      have hr : 0 < rest.length := by
        simp only [List.length_cons] at hi
        omega
      show lerpColor s1.color s2.color ((nh - s1.stop) / (s2.stop - s1.stop)) =
        lerpColor s2.color (rest.get ⟨0, hr⟩).color
          ((nh - s2.stop) / ((rest.get ⟨0, hr⟩).stop - s2.stop))
      rw [ht1, lerpColor_one, hnh, sub_self, zero_div, lerpColor_zero]
    · rw [rampWalk, if_neg htest]
      exact rampWalk_seg d (s2 :: rest) nh j (Nat.lt_of_succ_lt_succ hi) hp.of_cons hle2 hge2

end GameProto

namespace GameProto

/-- C2 counterexample: for `rampBiome` (stops 1/5 ↦ red and 4/5 ↦ blue over
the height band `[-1, 1]`), height `-4/5` normalizes to `1/10`, *below* the
first stop — and the source resolves it to the *last* stop's color (blue,
the loop's pre-initialized default), not the first stop's color (red) as the
claim states. -/
theorem color_below_first_stop_counterexample :
    getBiomeTerrainColor rampBiome (-4/5) = { r := 0, g := 0, b := 1 } ∧
    ({ r := 0, g := 0, b := 1 } : RGBColor) ≠ { r := 1, g := 0, b := 0 } := by
  constructor
  · norm_num [getBiomeTerrainColor, rampBiome, npFlat, jsOr, rampWalk,
      List.getLastD, lerpColor, lerp]
  · intro h
    have hr := congrArg RGBColor.r h
    norm_num at hr

/-- C2 (amended): over a strictly-ascending ramp, with the source's default
(the *last* stop's color), the ramp walk is the piecewise-linear reference:
exactly `colors[i]` at stop `i`, the straight-line interpolation strictly
between consecutive stops, the last stop's color above the last stop — and,
correcting the claim, also the *last* stop's color (not the first stop's)
below the first stop. -/
theorem color_ramp_piecewise_linear (ramp : List ColorStop) (nh : ℚ)
    (hne : ramp ≠ [])
    (hsorted : ramp.Pairwise (fun a b => a.stop < b.stop)) :
    (∀ (i : ℕ) (hi : i < ramp.length), nh = (ramp.get ⟨i, hi⟩).stop →
      rampWalk (ramp.getLast hne).color ramp nh = (ramp.get ⟨i, hi⟩).color) ∧
    (∀ (i : ℕ) (hi : i + 1 < ramp.length),
      (ramp.get ⟨i, Nat.lt_of_succ_lt hi⟩).stop < nh →
      nh < (ramp.get ⟨i + 1, hi⟩).stop →
      rampWalk (ramp.getLast hne).color ramp nh =
        lerpColor (ramp.get ⟨i, Nat.lt_of_succ_lt hi⟩).color
          (ramp.get ⟨i + 1, hi⟩).color
          ((nh - (ramp.get ⟨i, Nat.lt_of_succ_lt hi⟩).stop) /
            ((ramp.get ⟨i + 1, hi⟩).stop - (ramp.get ⟨i, Nat.lt_of_succ_lt hi⟩).stop))) ∧
    (nh < (ramp.head hne).stop →
      rampWalk (ramp.getLast hne).color ramp nh = (ramp.getLast hne).color) ∧
    ((ramp.getLast hne).stop < nh →
      rampWalk (ramp.getLast hne).color ramp nh = (ramp.getLast hne).color) := by
  refine ⟨?_, ?_, ?_, ?_⟩
  · intro i hi heq
    rcases Nat.lt_or_ge (i + 1) ramp.length with h2 | h2
    · have hlt : (ramp.get ⟨i, hi⟩).stop < (ramp.get ⟨i + 1, h2⟩).stop :=
        List.pairwise_iff_get.mp hsorted ⟨i, hi⟩ ⟨i + 1, h2⟩
          (by simp [Fin.mk_lt_mk])
      rw [rampWalk_seg _ ramp nh i h2 hsorted (le_of_eq heq.symm)
        (by rw [heq]; exact le_of_lt hlt)]
      rw [heq, sub_self, zero_div, lerpColor_zero]
    · rcases Nat.lt_or_ge 1 ramp.length with hlen | hlen
      · obtain ⟨k, hk⟩ : ∃ k, i = k + 1 := ⟨i - 1, by omega⟩
        subst hk
        have hklt : k + 1 < ramp.length := hi
        have hlt : (ramp.get ⟨k, Nat.lt_of_succ_lt hklt⟩).stop
            < (ramp.get ⟨k + 1, hklt⟩).stop :=
          List.pairwise_iff_get.mp hsorted _ _ (by simp [Fin.mk_lt_mk])
        rw [rampWalk_seg _ ramp nh k hklt hsorted
          (by rw [heq]; exact le_of_lt hlt) (le_of_eq heq)]
        rw [heq, div_self (ne_of_gt (sub_pos.mpr hlt)), lerpColor_one]
      · have h1 : ramp.length = 1 := by
          have := List.length_pos.mpr hne
          omega
        obtain ⟨a, ha⟩ := List.length_eq_one.mp h1
        subst ha
        have hi0 : i = 0 := by
          simp only [List.length_singleton] at hi
          omega
        subst hi0
        rfl
  · intro i hi h1 h2
    exact rampWalk_seg _ ramp nh i hi hsorted (le_of_lt h1) (le_of_lt h2)
  · intro h
    exact rampWalk_below _ ramp nh hsorted (fun _ => h)
  · intro h
    exact rampWalk_above _ ramp nh hsorted (fun _ => h)

/-- Witness for C2 at `rampBiome`'s ramp: querying exactly at the first stop
(normalized height 1/5) returns that stop's color (red). -/
theorem color_ramp_piecewise_linear_witness :
    ∃ hne : rampBiome.colorRamp ≠ [],
      rampBiome.colorRamp.Pairwise (fun a b => a.stop < b.stop) ∧
      rampWalk (rampBiome.colorRamp.getLast hne).color rampBiome.colorRamp (1/5)
        = { r := 1, g := 0, b := 0 } := by
  refine ⟨by simp [rampBiome], by norm_num [rampBiome], ?_⟩
  have h := (color_ramp_piecewise_linear rampBiome.colorRamp (1/5)
    (by simp [rampBiome]) (by norm_num [rampBiome])).1 0 (by simp [rampBiome]) rfl
  simpa [rampBiome] using h

end GameProto

namespace GameProto

/-- Componentwise description of `Vec3` addition. -/
theorem Vec3.add_def (a b : Vec3) : a + b = ⟨a.x + b.x, a.y + b.y, a.z + b.z⟩ := rfl

/-- The zero vector. -/
theorem Vec3.zero_def : (0 : Vec3) = ⟨0, 0, 0⟩ := rfl

/-- Components of the zero vector. -/
theorem Vec3.zero_x : (0 : Vec3).x = 0 := rfl

/-- Components of the zero vector. -/
theorem Vec3.zero_y : (0 : Vec3).y = 0 := rfl

/-- Components of the zero vector. -/
theorem Vec3.zero_z : (0 : Vec3).z = 0 := rfl

/-- `Vec3` extensionality. -/
theorem Vec3.ext' (a b : Vec3) (hx : a.x = b.x) (hy : a.y = b.y)
    (hz : a.z = b.z) : a = b := by
  cases a
  cases b
  simp_all

/-- Right identity for `Vec3` addition. -/
theorem vec3_add_zero (a : Vec3) : a + 0 = a := by
  cases a
  simp [Vec3.add_def, Vec3.zero_def]

/-- Left identity for `Vec3` addition. -/
theorem vec3_zero_add (a : Vec3) : 0 + a = a := by
  cases a
  simp [Vec3.add_def, Vec3.zero_def]

/-- Associativity of `Vec3` addition. -/
theorem vec3_add_assoc (a b c : Vec3) : a + b + c = a + (b + c) := by
  simp [Vec3.add_def, add_assoc]

/-- Shift the accumulator of a vector-summing fold out front. -/
theorem foldl_add_shift (f : ℕ × ℕ × ℕ → Vec3) :
    ∀ (ts : List (ℕ × ℕ × ℕ)) (s : Vec3),
      ts.foldl (fun a t => a + f t) s = s + ts.foldl (fun a t => a + f t) 0
  | [], s => (vec3_add_zero s).symm
  | t :: ts, s => by
    simp only [List.foldl_cons]
    rw [foldl_add_shift f ts (s + f t), foldl_add_shift f ts (0 + f t),
      vec3_zero_add, vec3_add_assoc]

/-- Reading slot `3j` after one `addAt` at vertex `i`. -/
theorem addAt_read0 (acc : ℕ → ℚ) (i : ℕ) (w : Vec3) (j : ℕ) :
    addAt acc i w (3 * j) = acc (3 * j) + (if i = j then w.x else 0) := by
  unfold addAt
  by_cases h : i = j
  · subst h
    simp
  · have h1 : ¬(3 * j = 3 * i) := by omega
    have h2 : ¬(3 * j = 3 * i + 1) := by omega
    have h3 : ¬(3 * j = 3 * i + 2) := by omega
    simp [h1, h2, h3, h]

/-- Reading slot `3j+1` after one `addAt` at vertex `i`. -/
theorem addAt_read1 (acc : ℕ → ℚ) (i : ℕ) (w : Vec3) (j : ℕ) :
    addAt acc i w (3 * j + 1) = acc (3 * j + 1) + (if i = j then w.y else 0) := by
  unfold addAt
  by_cases h : i = j
  · subst h
    simp
  · have h1 : ¬(3 * j + 1 = 3 * i) := by omega
    have h2 : ¬(3 * j + 1 = 3 * i + 1) := by omega
    have h3 : ¬(3 * j + 1 = 3 * i + 2) := by omega
    simp [h1, h2, h3, h]

/-- Reading slot `3j+2` after one `addAt` at vertex `i`. -/
theorem addAt_read2 (acc : ℕ → ℚ) (i : ℕ) (w : Vec3) (j : ℕ) :
    addAt acc i w (3 * j + 2) = acc (3 * j + 2) + (if i = j then w.z else 0) := by
  unfold addAt
  by_cases h : i = j
  · subst h
    simp
  · have h1 : ¬(3 * j + 2 = 3 * i) := by omega
    have h2 : ¬(3 * j + 2 = 3 * i + 1) := by omega
    have h3 : ¬(3 * j + 2 = 3 * i + 2) := by omega
    simp [h1, h2, h3, h]

/-- One triangle's three `addAt`s, read back as a `Vec3` at vertex `v`: the
face vector enters `v`'s accumulator once per corner equal to `v`. -/
theorem addAt_triple_read (acc : ℕ → ℚ) (t : ℕ × ℕ × ℕ) (w : Vec3) (v : ℕ) :
    (⟨addAt (addAt (addAt acc t.1 w) t.2.1 w) t.2.2 w (3 * v),
      addAt (addAt (addAt acc t.1 w) t.2.1 w) t.2.2 w (3 * v + 1),
      addAt (addAt (addAt acc t.1 w) t.2.1 w) t.2.2 w (3 * v + 2)⟩ : Vec3)
      = (⟨acc (3 * v), acc (3 * v + 1), acc (3 * v + 2)⟩ : Vec3)
        + Vec3.scale (cornerMultiplicity v t : ℚ) w := by
  refine Vec3.ext' _ _ ?_ ?_ ?_ <;>
    simp only [Vec3.add_def, Vec3.scale, addAt_read0, addAt_read1, addAt_read2,
      cornerMultiplicity] <;>
    by_cases h1 : t.1 = v <;> by_cases h2 : t.2.1 = v <;> by_cases h3 : t.2.2 = v <;>
    simp [h1, h2, h3] <;> ring

/-- The accumulation fold, read back at vertex `v`, equals the starting
value plus the multiplicity-weighted sum of the per-triangle vectors. -/
theorem accum_fold_read (g : ℕ × ℕ × ℕ → Vec3) :
    ∀ (ts : List (ℕ × ℕ × ℕ)) (acc : ℕ → ℚ) (v : ℕ),
      (⟨(ts.foldl (fun a t => addAt (addAt (addAt a t.1 (g t)) t.2.1 (g t)) t.2.2 (g t)) acc) (3 * v),
        (ts.foldl (fun a t => addAt (addAt (addAt a t.1 (g t)) t.2.1 (g t)) t.2.2 (g t)) acc) (3 * v + 1),
        (ts.foldl (fun a t => addAt (addAt (addAt a t.1 (g t)) t.2.1 (g t)) t.2.2 (g t)) acc) (3 * v + 2)⟩ : Vec3)
        = (⟨acc (3 * v), acc (3 * v + 1), acc (3 * v + 2)⟩ : Vec3)
          + ts.foldl (fun s t => s + Vec3.scale (cornerMultiplicity v t : ℚ) (g t)) 0
  | [], acc, v => (vec3_add_zero _).symm
  | t :: ts, acc, v => by
    simp only [List.foldl_cons]
    rw [accum_fold_read g ts _ v, addAt_triple_read acc t (g t) v,
      foldl_add_shift (fun t => Vec3.scale (cornerMultiplicity v t : ℚ) (g t)) ts
        (0 + Vec3.scale (cornerMultiplicity v t : ℚ) (g t)),
      vec3_zero_add, vec3_add_assoc]

end GameProto

namespace GameProto

/-- Indexing into a `flatMap` of three-element chunks. -/
theorem flatMap_chunk3_getD :
    ∀ (n : ℕ) (f : ℕ → List ℚ) (v k : ℕ),
      (∀ i, (f i).length = 3) → v < n → k < 3 →
      ((List.range n).flatMap f).getD (3 * v + k) 0 = (f v).getD k 0
  | 0, _, v, _ => by
    intro _ hv _
    exact absurd hv (Nat.not_lt_zero v)
  | m + 1, f, v, k => by
    intro hf hv hk
    rw [List.range_succ_eq_map, List.flatMap_cons]
    cases v with
    | zero =>
      simp only [Nat.mul_zero, Nat.zero_add]
      rw [List.getD_append _ _ _ _ (by rw [hf 0]; omega)]
    | succ w =>
      rw [List.getD_append_right _ _ _ _ (by rw [hf 0]; omega), hf 0]
      have hidx : 3 * (w + 1) + k - 3 = 3 * w + k := by omega
      rw [hidx, List.flatMap_map]
      exact flatMap_chunk3_getD m (fun a => f (a + 1)) w k (fun i => hf (i + 1))
        (by omega) hk

/-- Every `normalizeChunk` is a triple. -/
theorem normalizeChunk_length (acc : ℕ → ℚ) (i : ℕ) :
    (normalizeChunk acc i).length = 3 := by
  unfold normalizeChunk
  by_cases h : ratSqrt (Vec3.normSq ⟨acc (3 * i), acc (3 * i + 1), acc (3 * i + 2)⟩) > 0 <;>
    simp [h]

/-- Reading vertex `v` of the normalization pass. -/
theorem normalizePass_read (acc : ℕ → ℚ) (n v : ℕ) (hv : v < n) :
    readVec (normalizePass acc n) v =
      (let w : Vec3 := ⟨acc (3 * v), acc (3 * v + 1), acc (3 * v + 2)⟩
       let len := ratSqrt w.normSq
       if len > 0 then ⟨w.x / len, w.y / len, w.z / len⟩ else w) := by
  have h0 := flatMap_chunk3_getD n (normalizeChunk acc) v 0
    (normalizeChunk_length acc) hv (by omega)
  have h1 := flatMap_chunk3_getD n (normalizeChunk acc) v 1
    (normalizeChunk_length acc) hv (by omega)
  have h2 := flatMap_chunk3_getD n (normalizeChunk acc) v 2
    (normalizeChunk_length acc) hv (by omega)
  rw [Nat.add_zero] at h0
  unfold readVec normalizePass
  rw [h0, h1, h2]
  unfold normalizeChunk
  by_cases h : ratSqrt (Vec3.normSq ⟨acc (3 * v), acc (3 * v + 1), acc (3 * v + 2)⟩) > 0 <;>
    simp [h]

/-- `ratSqrt` is exact on squares of non-negative rationals. -/
theorem ratSqrt_sq (r : ℚ) (h : 0 ≤ r) : ratSqrt (r * r) = r := by
  have hnum : 0 ≤ r.num := Rat.num_nonneg.mpr h
  obtain ⟨m, hm⟩ : ∃ m : ℕ, r.num = (m : ℤ) := ⟨r.num.toNat, (Int.toNat_of_nonneg hnum).symm⟩
  unfold ratSqrt
  rw [Rat.mul_self_num, Rat.mul_self_den, hm]
  have htn : ((m : ℤ) * (m : ℤ)).toNat = m * m := by
    rw [← Int.natCast_mul, Int.toNat_natCast]
  rw [htn, Nat.sqrt_eq, Nat.sqrt_eq]
  conv_rhs => rw [← Rat.num_div_den r]
  rw [hm]
  norm_num

end GameProto

namespace GameProto

/-- `ratSqrt 0 = 0`. -/
theorem ratSqrt_zero : ratSqrt 0 = 0 := by
  have h := ratSqrt_sq 0 (le_refl 0)
  rwa [mul_zero] at h

/-- The normalized face normal is the JS normalization of the raw cross
product. -/
theorem faceUnitNormal_eq_normalize (vertices : List ℚ) (t : ℕ × ℕ × ℕ) :
    faceUnitNormal vertices t = (faceCross vertices t).normalizeJS := rfl

/-- The raw cross product of the sample triangle. -/
theorem faceCross_tri : faceCross triVerts (0, 1, 2) = ⟨0, -4, 0⟩ := by
  norm_num [faceCross, readVec, triVerts, Vec3.sub, Vec3.cross, List.getD]

/-- Normalizing `(0, -4, 0)` gives the unit vector `(0, -1, 0)`. -/
theorem normalizeJS_tri : (⟨0, -4, 0⟩ : Vec3).normalizeJS = ⟨0, -1, 0⟩ := by
  simp only [Vec3.normalizeJS]
  rw [show Vec3.normSq ⟨0, -4, 0⟩ = (4 : ℚ) * 4 from by norm_num [Vec3.normSq]]
  rw [ratSqrt_sq 4 (by norm_num)]
  norm_num

/-- The source's accumulated normal of vertex 0 of the sample triangle: the
*unit* face normal. -/
theorem accumVec_tri : accumVec triVerts triIdx 0 = ⟨0, -1, 0⟩ := by
  unfold accumVec accumNormals
  rw [show triangleList triIdx = [(0, 1, 2)] from rfl]
  simp only [List.foldl_cons, List.foldl_nil]
  rw [show (3 : ℕ) * 0 = 0 from rfl]
  have h := addAt_triple_read (fun _ => 0) (0, 1, 2)
    (faceUnitNormal triVerts (0, 1, 2)) 0
  rw [show (3 : ℕ) * 0 = 0 from rfl] at h
  rw [h, faceUnitNormal_eq_normalize, faceCross_tri, normalizeJS_tri]
  norm_num [cornerMultiplicity, Vec3.scale, Vec3.add_def, Vec3.zero_x,
    Vec3.zero_y, Vec3.zero_z]

/-- The claim's area-weighted accumulation at vertex 0 of the sample
triangle: the raw cross product. -/
theorem areaSum_tri : areaNormalSum triVerts triIdx 0 = ⟨0, -4, 0⟩ := by
  unfold areaNormalSum
  rw [show triangleList triIdx = [(0, 1, 2)] from rfl]
  simp only [List.foldl_cons, List.foldl_nil]
  rw [faceCross_tri]
  norm_num [cornerMultiplicity, Vec3.scale, Vec3.add_def, Vec3.zero_x,
    Vec3.zero_y, Vec3.zero_z]

/-- C3 counterexample: on a single axis-aligned triangle of area 2, the
source's pre-normalization accumulator holds the *normalized* face normal
`(0, -1, 0)`, not the area-weighted cross product `(0, -4, 0)` the claim
describes — `edge1.cross(edge2).normalize()` normalizes *before*
accumulating. -/
theorem accum_not_area_weighted_counterexample :
    accumVec triVerts triIdx 0 = ⟨0, -1, 0⟩ ∧
    areaNormalSum triVerts triIdx 0 = ⟨0, -4, 0⟩ ∧
    accumVec triVerts triIdx 0 ≠ areaNormalSum triVerts triIdx 0 := by
  refine ⟨accumVec_tri, areaSum_tri, ?_⟩
  rw [accumVec_tri, areaSum_tri]
  intro h
  have hy := congrArg Vec3.y h
  norm_num at hy

/-- C3 (amended): each vertex's pre-normalization accumulator equals the
multiplicity-weighted sum of the *normalized* (unit) face normals of its
incident triangles (not the area-weighted sum of raw cross products); after
the accumulation, a zero accumulator is emitted unchanged as zero, and a
non-zero accumulator whose squared norm is an exact rational square is
scaled to exactly unit length. -/
theorem calculateNormals_unit_accumulation (vertices : List ℚ)
    (indices : List ℕ) (v : ℕ) :
    accumVec vertices indices v = unitNormalSum vertices indices v ∧
    (v < vertices.length / 3 → accumVec vertices indices v = ⟨0, 0, 0⟩ →
      readVec (calculateNormals vertices indices) v = ⟨0, 0, 0⟩) ∧
    (v < vertices.length / 3 → ∀ r : ℚ, 0 < r →
      r * r = (accumVec vertices indices v).normSq →
      (readVec (calculateNormals vertices indices) v).normSq = 1) := by
  have hacc : accumVec vertices indices v = unitNormalSum vertices indices v := by
    unfold accumVec accumNormals unitNormalSum
    rw [accum_fold_read (faceUnitNormal vertices) (triangleList indices)
      (fun _ => 0) v]
    rw [show ((⟨(fun _ => (0 : ℚ)) (3 * v), (fun _ => (0 : ℚ)) (3 * v + 1),
      (fun _ => (0 : ℚ)) (3 * v + 2)⟩ : Vec3)) = 0 from rfl]
    rw [vec3_zero_add]
  have hw : ∀ (hv : v < vertices.length / 3),
      readVec (calculateNormals vertices indices) v =
        (let w := accumVec vertices indices v
         let len := ratSqrt w.normSq
         if len > 0 then ⟨w.x / len, w.y / len, w.z / len⟩ else w) := by
    intro hv
    unfold calculateNormals
    rw [normalizePass_read _ _ v hv]
    rfl
  refine ⟨hacc, ?_, ?_⟩
  · intro hv hzero
    rw [hw hv]
    simp only [hzero]
    rw [show Vec3.normSq ⟨0, 0, 0⟩ = 0 from by norm_num [Vec3.normSq]]
    rw [ratSqrt_zero]
    norm_num
  · intro hv r hr hsq
    rw [hw hv]
    simp only
    rw [← hsq, ratSqrt_sq r (le_of_lt hr), if_pos hr]
    have hx := hsq
    unfold Vec3.normSq at hx ⊢
    field_simp
    linarith [hx]

end GameProto

namespace GameProto

/-- Witness for C3 at the sample triangle: vertex 0's accumulator has unit
squared norm witness `r = 1`, and the emitted normal is exactly unit. -/
theorem calculateNormals_unit_accumulation_witness :
    0 < triVerts.length / 3 ∧ (0 : ℚ) < 1 ∧
    (1 : ℚ) * 1 = (accumVec triVerts triIdx 0).normSq ∧
    (readVec (calculateNormals triVerts triIdx) 0).normSq = 1 := by
  have hsq : (1 : ℚ) * 1 = (accumVec triVerts triIdx 0).normSq := by
    rw [accumVec_tri]
    norm_num [Vec3.normSq]
  exact ⟨by norm_num [triVerts], by norm_num, hsq,
    (calculateNormals_unit_accumulation triVerts triIdx 0).2.2
      (by norm_num [triVerts]) 1 (by norm_num) hsq⟩

end GameProto

namespace GameProto

/-- In-place sort of a singleton biome list. -/
theorem sortBiomes_singleton (b : BiomeProfile) : sortBiomes [b] = [b] :=
  List.perm_singleton.mp (List.mergeSort_perm [b] _)

/-- The sorted biome list is empty iff the input list is. -/
theorem sortBiomes_ne_nil (biomes : List BiomeProfile) (h : biomes ≠ []) :
    sortBiomes biomes ≠ [] := by
  intro hc
  have hp : sortBiomes biomes |>.Perm biomes := List.mergeSort_perm biomes _
  rw [hc] at hp
  exact h (List.Perm.eq_nil hp.symm)

/-- With a single biome, `getBiomeInfo` returns that biome and its own
parameters regardless of the control-noise value (the selection loop hits the
biome or falls back to the last — both are the same biome — and there is no
next biome to blend toward). -/
theorem getBiomeInfo_singleton (g : TerrainGenerator) (b : BiomeProfile)
    (hb : g.biomes = [b]) (wx wz : ℚ) :
    getBiomeInfo g wx wz = (b, b.terrainParams) := by
  by_cases hc : b.controlRange.1 ≤
      fBm g.biomeControlPerm wx wz (controlNoiseParams g.biomeControl) ∧
      fBm g.biomeControlPerm wx wz (controlNoiseParams g.biomeControl) <
        b.controlRange.2
  · simp [getBiomeInfo, hb, findPrimary, hc]
  · simp [getBiomeInfo, hb, findPrimary, hc]

/-- A matched primary biome belongs to the biome list. -/
theorem findPrimary_mem :
    ∀ (biomes : List BiomeProfile) (v : ℚ) (p : BiomeProfile × Option BiomeProfile),
      findPrimary biomes v = some p → p.1 ∈ biomes
  | [], _, p => by simp [findPrimary]
  | [b], v, p => by
    unfold findPrimary
    split
    · intro h
      cases h
      simp
    · intro h
      cases h
  | b :: b2 :: rest, v, p => by
    unfold findPrimary
    split
    · intro h
      cases h
      simp
    · intro h
      exact List.mem_cons_of_mem b (findPrimary_mem (b2 :: rest) v p h)

/-- `getLastD` of a non-empty list is a member. -/
theorem getLastD_mem (l : List BiomeProfile) (hne : l ≠ []) (d : BiomeProfile) :
    l.getLastD d ∈ l := by
  cases l with
  | nil => exact absurd rfl hne
  | cons a t =>
    rw [List.getLastD_eq_getLast?, List.getLast?_eq_getLast (a :: t) (by simp),
      Option.getD_some]
    exact List.getLast_mem _

/-- The first component of `getBiomeInfo` is the selected primary biome. -/
theorem getBiomeInfo_fst (g : TerrainGenerator) (wx wz : ℚ) :
    (getBiomeInfo g wx wz).1
      = ((findPrimary g.biomes
          (fBm g.biomeControlPerm wx wz (controlNoiseParams g.biomeControl))).getD
            (g.biomes.getLastD undefinedBiome, none)).1 := by
  simp only [getBiomeInfo]
  rcases hq : ((findPrimary g.biomes
      (fBm g.biomeControlPerm wx wz (controlNoiseParams g.biomeControl))).getD
        (g.biomes.getLastD undefinedBiome, none)).2 with _ | nb
  · simp only [hq]
  · simp only [hq]
    split <;> rfl

/-- Whenever the biome list is non-empty, the primary biome returned by
`getBiomeInfo` is one of the engine's biomes. -/
theorem getBiomeInfo_fst_mem (g : TerrainGenerator) (hne : g.biomes ≠ [])
    (wx wz : ℚ) : (getBiomeInfo g wx wz).1 ∈ g.biomes := by
  rw [getBiomeInfo_fst]
  cases hfp : findPrimary g.biomes
      (fBm g.biomeControlPerm wx wz (controlNoiseParams g.biomeControl)) with
  | none =>
    simp only [Option.getD_none]
    exact getLastD_mem g.biomes hne undefinedBiome
  | some p =>
    simp only [Option.getD_some]
    exact findPrimary_mem _ _ _ hfp

/-- Elements survive the deduplicating fold of
`analyzeMaterialRequirements`. -/
theorem mem_dedup_foldl :
    ∀ (l acc : List BiomeMaterialType) (x : BiomeMaterialType),
      (x ∈ acc ∨ x ∈ l) →
      x ∈ l.foldl (fun acc t => if t ∈ acc then acc else acc ++ [t]) acc
  | [], acc, x => by
    intro h
    rcases h with h | h
    · simpa using h
    · simp at h
  | t :: ts, acc, x => by
    intro h
    simp only [List.foldl_cons]
    apply mem_dedup_foldl ts
    by_cases hta : t ∈ acc
    · rw [if_pos hta]
      rcases h with h | h
      · exact Or.inl h
      · rcases List.mem_cons.mp h with h | h
        · exact Or.inl (h ▸ hta)
        · exact Or.inr h
    · rw [if_neg hta]
      rcases h with h | h
      · exact Or.inl (List.mem_append_left _ h)
      · rcases List.mem_cons.mp h with h | h
        · exact Or.inl (List.mem_append_right _ (by simp [h]))
        · exact Or.inr h

/-- Each biome's material type appears in the required-material key set. -/
theorem mem_requiredMaterialTypes (biomes : List BiomeProfile)
    (b : BiomeProfile) (hb : b ∈ biomes) :
    (classifyBiomeMaterial b).materialType ∈ requiredMaterialTypes biomes := by
  unfold requiredMaterialTypes
  exact mem_dedup_foldl _ [] _ (Or.inr (List.mem_map_of_mem _ hb))

/-- Reading a slot just written. -/
theorem get_set_same (gs : MaterialGeometries) (t : BiomeMaterialType)
    (geo : MaterialGeometry) : (gs.set t geo).get t = some geo := by
  cases t <;> rfl

/-- Reading another slot after a write. -/
theorem get_set_other (gs : MaterialGeometries) (t u : BiomeMaterialType)
    (geo : MaterialGeometry) (h : t ≠ u) : (gs.set t geo).get u = gs.get u := by
  cases t <;> cases u <;> first
    | exact absurd rfl h
    | rfl

end GameProto

namespace GameProto

/-- Slots of the freshly initialized geometry map are either absent or the
empty buffer set. -/
theorem init_foldl_cases :
    ∀ (L : List BiomeMaterialType) (gs : MaterialGeometries) (t : BiomeMaterialType),
      ((gs.get t = none ∨ gs.get t = some emptyGeometry)) →
      ((L.foldl (fun gs t => gs.set t emptyGeometry) gs).get t = none ∨
       (L.foldl (fun gs t => gs.set t emptyGeometry) gs).get t = some emptyGeometry)
  | [], gs, t => fun h => h
  | u :: L, gs, t => by
    intro h
    simp only [List.foldl_cons]
    apply init_foldl_cases L
    by_cases hut : u = t
    · subst hut
      rw [get_set_same]
      exact Or.inr rfl
    · rw [get_set_other gs u t emptyGeometry hut]
      exact h

/-- Presence after the initialization fold. -/
theorem init_foldl_isSome :
    ∀ (L : List BiomeMaterialType) (gs : MaterialGeometries) (t : BiomeMaterialType),
      (t ∈ L ∨ (gs.get t).isSome = true) →
      ((L.foldl (fun gs t => gs.set t emptyGeometry) gs).get t).isSome = true
  | [], gs, t => by
    intro h
    rcases h with h | h
    · simp at h
    · exact h
  | u :: L, gs, t => by
    intro h
    simp only [List.foldl_cons]
    apply init_foldl_isSome L
    by_cases hut : u = t
    · subst hut
      rw [get_set_same]
      exact Or.inr rfl
    · rw [get_set_other gs u t emptyGeometry hut]
      rcases h with h | h
      · rcases List.mem_cons.mp h with h | h
        · exact absurd h.symm hut
        · exact Or.inl h
      · exact Or.inr h

/-- Every slot of `initializeMaterialGeometries` is absent or empty. -/
theorem init_get_cases (biomes : List BiomeProfile) (t : BiomeMaterialType) :
    (initializeMaterialGeometries biomes).get t = none ∨
    (initializeMaterialGeometries biomes).get t = some emptyGeometry := by
  simp only [initializeMaterialGeometries]
  split
  · exact init_foldl_cases _ _ t (Or.inl (by cases t <;> rfl))
  · by_cases ht : t = .standard
    · subst ht
      rw [get_set_same]
      exact Or.inr rfl
    · rw [get_set_other _ _ _ _ (fun h => ht h.symm)]
      exact init_foldl_cases _ _ t (Or.inl (by cases t <;> rfl))

/-- A required material type has an initialized slot. -/
theorem init_isSome_of_required (biomes : List BiomeProfile)
    (t : BiomeMaterialType) (ht : t ∈ requiredMaterialTypes biomes) :
    ((initializeMaterialGeometries biomes).get t).isSome = true := by
  simp only [initializeMaterialGeometries]
  split
  · exact init_foldl_isSome _ _ t (Or.inl ht)
  · by_cases hts : t = .standard
    · subst hts
      rw [get_set_same]
      rfl
    · rw [get_set_other _ _ _ _ (fun h => hts h.symm)]
      exact init_foldl_isSome _ _ t (Or.inl ht)

/-- The `standard` fallback slot is always initialized. -/
theorem init_standard_isSome (biomes : List BiomeProfile) :
    ((initializeMaterialGeometries biomes).get .standard).isSome = true := by
  simp only [initializeMaterialGeometries]
  split
  · rename_i heq
    simp [MaterialGeometries.get, heq]
  · rw [get_set_same]
    rfl

/-- Vertex filling acts slotwise as a map. -/
theorem genVertices_get (g : TerrainGenerator) (gs : MaterialGeometries)
    (t : BiomeMaterialType) :
    (generateMaterialSpecificVertices g gs).get t
      = (gs.get t).map (fun geo =>
          { geo with vertices := geo.vertices ++ standardPositions g,
                     normals := geo.normals ++ placeholderNormals g.segments,
                     uvs := geo.uvs ++ standardUVs g.segments }) := by
  cases t <;> rfl

/-- One split step never changes a slot's presence. -/
theorem splitStep_isSome (g : TerrainGenerator) (gs : MaterialGeometries)
    (cell : ℕ × ℕ) (t : BiomeMaterialType) :
    (((splitIndicesStep g gs cell).get t).isSome) = ((gs.get t).isSome) := by
  simp only [splitIndicesStep]
  split
  · rename_i geo hgeo
    by_cases hqt : getVertexMaterialType g
        (((cell.2 : ℚ) + 1/2) / (g.segments : ℚ) * g.width - g.width / 2)
        (((cell.1 : ℚ) + 1/2) / (g.segments : ℚ) * g.depth - g.depth / 2) = t
    · rw [hqt] at hgeo ⊢
      rw [get_set_same, hgeo]
      rfl
    · rw [get_set_other _ _ _ _ hqt]
  · rfl

/-- One split step never changes a slot's vertex buffer. -/
theorem splitStep_vertices (g : TerrainGenerator) (gs : MaterialGeometries)
    (cell : ℕ × ℕ) (t : BiomeMaterialType) :
    (((splitIndicesStep g gs cell).get t).map MaterialGeometry.vertices)
      = ((gs.get t).map MaterialGeometry.vertices) := by
  simp only [splitIndicesStep]
  split
  · rename_i geo hgeo
    by_cases hqt : getVertexMaterialType g
        (((cell.2 : ℚ) + 1/2) / (g.segments : ℚ) * g.width - g.width / 2)
        (((cell.1 : ℚ) + 1/2) / (g.segments : ℚ) * g.depth - g.depth / 2) = t
    · rw [hqt] at hgeo ⊢
      rw [get_set_same, hgeo]
      rfl
    · rw [get_set_other _ _ _ _ hqt]
  · rfl

/-- The whole split fold preserves presence. -/
theorem splitFold_isSome (g : TerrainGenerator) :
    ∀ (cells : List (ℕ × ℕ)) (gs : MaterialGeometries) (t : BiomeMaterialType),
      (((cells.foldl (splitIndicesStep g) gs).get t).isSome) = ((gs.get t).isSome)
  | [], _, _ => rfl
  | c :: cells, gs, t => by
    simp only [List.foldl_cons]
    rw [splitFold_isSome g cells _ t, splitStep_isSome]

/-- The whole split fold preserves vertex buffers. -/
theorem splitFold_vertices (g : TerrainGenerator) :
    ∀ (cells : List (ℕ × ℕ)) (gs : MaterialGeometries) (t : BiomeMaterialType),
      (((cells.foldl (splitIndicesStep g) gs).get t).map MaterialGeometry.vertices)
        = ((gs.get t).map MaterialGeometry.vertices)
  | [], _, _ => rfl
  | c :: cells, gs, t => by
    simp only [List.foldl_cons]
    rw [splitFold_vertices g cells _ t, splitStep_vertices]

end GameProto

namespace GameProto

/-- One split step either leaves a slot's index length unchanged or adds
exactly 6 entries (two triangles) to it. -/
theorem splitStep_slotLen (g : TerrainGenerator) (gs : MaterialGeometries)
    (cell : ℕ × ℕ) (t : BiomeMaterialType) :
    slotIndexLength (splitIndicesStep g gs cell) t = slotIndexLength gs t ∨
    slotIndexLength (splitIndicesStep g gs cell) t = slotIndexLength gs t + 6 := by
  simp only [splitIndicesStep]
  cases hq : gs.get (getVertexMaterialType g
      (((cell.2 : ℚ) + 1/2) / (g.segments : ℚ) * g.width - g.width / 2)
      (((cell.1 : ℚ) + 1/2) / (g.segments : ℚ) * g.depth - g.depth / 2)) with
  | none =>
    left
    rfl
  | some geo =>
    by_cases hqt : getVertexMaterialType g
        (((cell.2 : ℚ) + 1/2) / (g.segments : ℚ) * g.width - g.width / 2)
        (((cell.1 : ℚ) + 1/2) / (g.segments : ℚ) * g.depth - g.depth / 2) = t
    · right
      rw [hqt] at hq ⊢
      unfold slotIndexLength
      rw [get_set_same, hq]
      simp
    · left
      unfold slotIndexLength
      rw [get_set_other _ _ _ _ hqt]

/-- When the centroid's material slot is present, one split step adds
exactly 6 index entries in total. -/
theorem splitStep_totalLen (g : TerrainGenerator) (gs : MaterialGeometries)
    (cell : ℕ × ℕ)
    (hpres : ∀ wx wz : ℚ, ((gs.get (getVertexMaterialType g wx wz)).isSome = true)) :
    totalIndexLength (splitIndicesStep g gs cell) = totalIndexLength gs + 6 := by
  have hp := hpres
    (((cell.2 : ℚ) + 1/2) / (g.segments : ℚ) * g.width - g.width / 2)
    (((cell.1 : ℚ) + 1/2) / (g.segments : ℚ) * g.depth - g.depth / 2)
  obtain ⟨geo, hgeo⟩ := Option.isSome_iff_exists.mp hp
  simp only [splitIndicesStep, hgeo]
  cases hq : getVertexMaterialType g
      (((cell.2 : ℚ) + 1/2) / (g.segments : ℚ) * g.width - g.width / 2)
      (((cell.1 : ℚ) + 1/2) / (g.segments : ℚ) * g.depth - g.depth / 2) <;>
    rw [hq] at hgeo <;>
    cases gs <;>
    simp_all [totalIndexLength, slotIndexLength, MaterialGeometries.set,
      MaterialGeometries.get] <;>
    omega

/-- Folding the split over any cell list adds `6 × (number of cells)` index
entries in total, provided every centroid material type has a slot. -/
theorem splitFold_totalLen (g : TerrainGenerator) :
    ∀ (cells : List (ℕ × ℕ)) (gs : MaterialGeometries),
      (∀ wx wz : ℚ, ((gs.get (getVertexMaterialType g wx wz)).isSome = true)) →
      totalIndexLength (cells.foldl (splitIndicesStep g) gs)
        = totalIndexLength gs + 6 * cells.length
  | [], gs, _ => by simp
  | c :: cells, gs, hpres => by
    simp only [List.foldl_cons, List.length_cons]
    rw [splitFold_totalLen g cells (splitIndicesStep g gs c)
      (fun wx wz => by rw [splitStep_isSome]; exact hpres wx wz)]
    rw [splitStep_totalLen g gs c hpres]
    ring

/-- Index lengths divisible by 3 stay divisible by 3 through the fold. -/
theorem splitFold_slotLen_mod3 (g : TerrainGenerator) :
    ∀ (cells : List (ℕ × ℕ)) (gs : MaterialGeometries) (t : BiomeMaterialType),
      slotIndexLength gs t % 3 = 0 →
      slotIndexLength (cells.foldl (splitIndicesStep g) gs) t % 3 = 0
  | [], _, _ => fun h => h
  | c :: cells, gs, t => by
    intro h
    simp only [List.foldl_cons]
    apply splitFold_slotLen_mod3 g cells
    rcases splitStep_slotLen g gs c t with hs | hs <;> rw [hs] <;> omega

end GameProto

namespace GameProto

/-- The index loop visits `segments²` cells. -/
theorem cellList_length (segments : ℕ) :
    (cellList segments).length = segments ^ 2 := by
  unfold cellList
  rw [length_flatMap_const (List.range segments) _ segments (fun a _ => by simp)]
  simp [Nat.pow_two]

/-- Vertex filling does not touch index buffers. -/
theorem genVertices_slotLen (g : TerrainGenerator) (gs : MaterialGeometries)
    (t : BiomeMaterialType) :
    slotIndexLength (generateMaterialSpecificVertices g gs) t
      = slotIndexLength gs t := by
  unfold slotIndexLength
  rw [genVertices_get]
  cases gs.get t <;> rfl

/-- Initialized slots have empty index buffers. -/
theorem init_slotLen (biomes : List BiomeProfile) (t : BiomeMaterialType) :
    slotIndexLength (initializeMaterialGeometries biomes) t = 0 := by
  unfold slotIndexLength
  rcases init_get_cases biomes t with h | h <;> simp [h, slotIndexLength, emptyGeometry]

/-- Before the index pass the total index count is zero. -/
theorem totalLen_initVertices (g : TerrainGenerator) :
    totalIndexLength
      (generateMaterialSpecificVertices g (initializeMaterialGeometries g.biomes))
      = 0 := by
  unfold totalIndexLength
  rw [genVertices_slotLen, genVertices_slotLen, genVertices_slotLen,
    genVertices_slotLen, init_slotLen, init_slotLen, init_slotLen, init_slotLen]

/-- With a non-empty biome list, every centroid's material type has a slot in
the vertex-filled geometry map (the centroid's primary biome is a member of
the biome list, so its classification was initialized). -/
theorem presence_initVertices (g : TerrainGenerator) (hne : g.biomes ≠ [])
    (wx wz : ℚ) :
    (((generateMaterialSpecificVertices g
        (initializeMaterialGeometries g.biomes)).get
          (getVertexMaterialType g wx wz)).isSome = true) := by
  rw [genVertices_get]
  rw [Option.isSome_map']
  exact init_isSome_of_required _ _
    (mem_requiredMaterialTypes _ _ (getBiomeInfo_fst_mem g hne wx wz))

/-- C6: in the multi-material split every grid cell's two triangles land in
exactly one material's index buffer (the centroid's material always has an
initialized buffer), so the total index count is exactly `6·segments²`
(2 triangles × 3 indices per cell) and every per-material index count is a
multiple of 3 — hence triangle counts over all material buffers sum to
exactly `2·segments²`, none lost and none duplicated. -/
theorem multiMaterial_triangle_conservation (P : FullTerrainParameters)
    (ambient : ℕ) (hne : P.biomes ≠ []) :
    totalIndexLength (materialGeometriesOf (TerrainGenerator.mk' P ambient))
        = 6 * P.global.segments ^ 2 ∧
    ∀ t, slotIndexLength (materialGeometriesOf (TerrainGenerator.mk' P ambient)) t % 3
        = 0 := by
  set g := TerrainGenerator.mk' P ambient with hg
  have hgne : g.biomes ≠ [] := sortBiomes_ne_nil P.biomes hne
  have hpres := presence_initVertices g hgne
  have hseg : g.segments = P.global.segments := rfl
  constructor
  · unfold materialGeometriesOf generateMaterialSpecificIndices
    rw [splitFold_totalLen g (cellList g.segments) _ hpres, totalLen_initVertices,
      cellList_length, hseg]
    omega
  · intro t
    unfold materialGeometriesOf generateMaterialSpecificIndices
    apply splitFold_slotLen_mod3
    rw [genVertices_slotLen, init_slotLen]

/-- Witness for C6 at `P4` (one water biome, `segments = 1`): 6 index entries
in total (2 triangles). -/
theorem multiMaterial_triangle_conservation_witness :
    P4.biomes ≠ [] ∧
    totalIndexLength (materialGeometriesOf (TerrainGenerator.mk' P4 0))
      = 6 * P4.global.segments ^ 2 :=
  ⟨by simp [P4], (multiMaterial_triangle_conservation P4 0 (by simp [P4])).1⟩

end GameProto

namespace GameProto

/-- Total size of the shared position buffer. -/
theorem standardPositions_length (g : TerrainGenerator) :
    (standardPositions g).length = 3 * (g.segments + 1) ^ 2 := by
  simp only [standardPositions]
  refine (length_flatMap_flatMap_const (g.segments + 1) (g.segments + 1) 3 _ ?_).trans
    (by ring)
  intro z x
  rfl

/-- The whole split fold leaves a slot untouched when no centroid ever
classifies to it. -/
theorem splitFold_get_of_ne (g : TerrainGenerator) (t : BiomeMaterialType) :
    ∀ (cells : List (ℕ × ℕ)) (gs : MaterialGeometries),
      (∀ wx wz : ℚ, getVertexMaterialType g wx wz ≠ t) →
      ((cells.foldl (splitIndicesStep g) gs).get t) = gs.get t
  | [], _, _ => rfl
  | c :: cells, gs, hne => by
    simp only [List.foldl_cons]
    rw [splitFold_get_of_ne g t cells _ hne]
    simp only [splitIndicesStep]
    split
    · exact get_set_other _ _ _ _ (hne _ _)
    · rfl

/-- The `standard` fallback slot starts as the empty buffer set. -/
theorem init_standard_eq (biomes : List BiomeProfile) :
    (initializeMaterialGeometries biomes).get .standard = some emptyGeometry := by
  rcases init_get_cases biomes .standard with h | h
  · have hs := init_standard_isSome biomes
    rw [h] at hs
    simp at hs
  · exact h


/-- Filling the empty buffer set yields exactly the pushed buffers. -/
theorem fill_emptyGeometry (X N U : List ℚ) :
    ((some emptyGeometry).map (fun geo =>
      { geo with vertices := geo.vertices ++ X,
                 normals := geo.normals ++ N,
                 uvs := geo.uvs ++ U }))
    = some { vertices := X, indices := [], normals := N, uvs := U,
             colors := [] } := rfl

/-- Vertex read-back of filling an absent slot. -/
theorem fill_vertices_none (X N U : List ℚ) :
    (((none : Option MaterialGeometry).map (fun geo =>
      { geo with vertices := geo.vertices ++ X,
                 normals := geo.normals ++ N,
                 uvs := geo.uvs ++ U })).map MaterialGeometry.vertices)
    = (none : Option MaterialGeometry).map (fun _ => X) := rfl

/-- Vertex read-back of filling an initially empty slot. -/
theorem fill_vertices_some (X N U : List ℚ) :
    (((some emptyGeometry).map (fun geo =>
      { geo with vertices := geo.vertices ++ X,
                 normals := geo.normals ++ N,
                 uvs := geo.uvs ++ U })).map MaterialGeometry.vertices)
    = (some emptyGeometry).map (fun _ => X) := rfl

/-- C4 counterexample: with a single water biome (`P4`), every cell's
centroid classifies as water, so the `standard` fallback geometry ends with
an *empty index buffer* — yet `createMaterialMeshes` still emits a standard
sub-mesh, because its skip test checks the (always non-empty) *vertex*
buffer, not the index buffer. -/
theorem empty_index_submesh_emitted_counterexample :
    ∃ geo, ((BiomeMaterialType.standard, geo) ∈
        createMaterialMeshes (TerrainGenerator.mk' P4 0)) ∧ geo.indices = [] := by
  set g := TerrainGenerator.mk' P4 0 with hg
  have hb : g.biomes = [waterBiome] := sortBiomes_singleton waterBiome
  have hqt : ∀ wx wz : ℚ, getVertexMaterialType g wx wz ≠ .standard := by
    intro wx wz hc
    unfold getVertexMaterialType at hc
    rw [getBiomeInfo_singleton g waterBiome hb] at hc
    simp [classifyBiomeMaterial, waterBiome] at hc
  have hstd : (materialGeometriesOf g).get .standard
      = some { vertices := standardPositions g, indices := [],
               normals := placeholderNormals g.segments,
               uvs := standardUVs g.segments, colors := [] } := by
    unfold materialGeometriesOf generateMaterialSpecificIndices
    rw [splitFold_get_of_ne g .standard (cellList g.segments) _ hqt,
      genVertices_get, init_standard_eq, fill_emptyGeometry]
  have hpos : 0 < (standardPositions g).length := by
    rw [standardPositions_length]
    positivity
  have hlen : ¬((standardPositions g).length = 0) := by omega
  refine ⟨{ vertices := standardPositions g, indices := [],
            normals := placeholderNormals g.segments,
            uvs := standardUVs g.segments, colors := [] }, ?_, rfl⟩
  apply List.mem_filterMap.mpr
  refine ⟨.standard, by simp [renderOrder], ?_⟩
  rw [hstd]
  show (if (standardPositions g).length = 0 then none
      else some (BiomeMaterialType.standard,
        ({ vertices := standardPositions g, indices := [],
           normals := placeholderNormals g.segments,
           uvs := standardUVs g.segments, colors := [] } : MaterialGeometry)))
    = some (BiomeMaterialType.standard,
        { vertices := standardPositions g, indices := [],
          normals := placeholderNormals g.segments,
          uvs := standardUVs g.segments, colors := [] })
  rw [if_neg hlen]

/-- C4 (amended): a sub-mesh is emitted for a material type exactly when
that type has an initialized geometry slot (the required types plus the
`standard` fallback) — the skip test compares the *vertex* buffer against
empty, and every initialized slot received the full shared vertex buffer, so
material types whose index buffer is empty are *still emitted*. -/
theorem createMaterialMeshes_emits_all_initialized (P : FullTerrainParameters)
    (ambient : ℕ) (t : BiomeMaterialType) :
    (∃ geo, (t, geo) ∈ createMaterialMeshes (TerrainGenerator.mk' P ambient)) ↔
    ((initializeMaterialGeometries
        (TerrainGenerator.mk' P ambient).biomes).get t).isSome = true := by
  set g := TerrainGenerator.mk' P ambient with hg
  have hsome : ((materialGeometriesOf g).get t).isSome
      = ((initializeMaterialGeometries g.biomes).get t).isSome := by
    unfold materialGeometriesOf generateMaterialSpecificIndices
    rw [splitFold_isSome, genVertices_get, Option.isSome_map']
  have hverts : ((materialGeometriesOf g).get t).map MaterialGeometry.vertices
      = ((initializeMaterialGeometries g.biomes).get t).map
          (fun _ => standardPositions g) := by
    unfold materialGeometriesOf generateMaterialSpecificIndices
    rw [splitFold_vertices, genVertices_get]
    rcases init_get_cases g.biomes t with h | h <;> rw [h]
    · exact fill_vertices_none _ _ _
    · exact fill_vertices_some _ _ _
  constructor
  · rintro ⟨geo, hmem⟩
    rw [← hsome]
    obtain ⟨u, _, hf⟩ := List.mem_filterMap.mp hmem
    cases hq : (materialGeometriesOf g).get u with
    | none =>
      rw [hq] at hf
      cases hf
    | some geo2 =>
      rw [hq] at hf
      by_cases hlen : geo2.vertices.length = 0
      · simp [hlen] at hf
      · simp only [hlen, if_false] at hf
        simp only [Option.some.injEq, Prod.mk.injEq] at hf
        rw [← hf.1, hq]
        rfl
  · intro hinit
    have h1 : ((materialGeometriesOf g).get t).isSome = true := by
      rw [hsome]
      exact hinit
    obtain ⟨geo, hgeo⟩ := Option.isSome_iff_exists.mp h1
    have hvlen : ¬(geo.vertices.length = 0) := by
      rw [hgeo] at hverts
      rcases init_get_cases g.biomes t with h | h
      · rw [h] at hinit
        simp at hinit
      · rw [h] at hverts
        simp only [Option.map_some'] at hverts
        have hv : geo.vertices = standardPositions g :=
          Option.some_injective _ hverts
        have hpos : 0 < geo.vertices.length := by
          rw [hv, standardPositions_length]
          positivity
        omega
    refine ⟨geo, List.mem_filterMap.mpr ⟨t, by cases t <;> simp [renderOrder], ?_⟩⟩
    rw [hgeo]
    show (if geo.vertices.length = 0 then none else some (t, geo)) = some (t, geo)
    rw [if_neg hvlen]


/-! ## C1: ambient seeding of the general-purpose noise -/

/-- `fade(1/2) = 1/2`. -/
theorem fade_half : fade (1/2 : ℚ) = 1/2 := by norm_num [fade]

/-- `fade(0) = 0`. -/
theorem fade_zero : fade (0 : ℚ) = 0 := by norm_num [fade]

/-- Lerp at `t = 0` returns the first endpoint. -/
theorem noiseLerp_zero (a b : ℚ) : noiseLerp a b 0 = a := by
  simp [noiseLerp]

/-- `⌊-1/2⌋ = -1`. -/
theorem floor_neg_half : (Int.floor (-(1/2) : ℚ)) = -1 := by
  rw [Int.floor_eq_iff]
  constructor <;> norm_num

set_option maxRecDepth 100000 in
/-- The ambient draw 0 produces exactly the table `pTable0`. -/
theorem genPerm0 : generatePermutation 0 = pTable0 := by decide

set_option maxRecDepth 100000 in
/-- The ambient draw 1 produces exactly the table `pTable1`. -/
theorem genPerm1 : generatePermutation 1 = pTable1 := by decide

set_option maxRecDepth 100000 in
/-- Gradient noise over `pTable0` at the grid point `(-1/2, -1/2)`. -/
theorem perlin0 : perlinNoise pTable0 (-(1/2)) (-(1/2)) 0 = -(1/4) := by
  have l255 : pTable0[(255:ℕ)]? = some 68 := by decide
  have l323 : pTable0[(323:ℕ)]? = some 25 := by decide
  have l324 : pTable0[(324:ℕ)]? = some 87 := by decide
  have l256 : pTable0[(256:ℕ)]? = some 242 := by decide
  have l497 : pTable0[(497:ℕ)]? = some 174 := by decide
  have l498 : pTable0[(498:ℕ)]? = some 99 := by decide
  have l25 : pTable0[(25:ℕ)]? = some 139 := by decide
  have l174 : pTable0[(174:ℕ)]? = some 249 := by decide
  have l87 : pTable0[(87:ℕ)]? = some 187 := by decide
  have l99 : pTable0[(99:ℕ)]? = some 122 := by decide
  have hm : ((-1 : ℤ) % 256).toNat = 255 := by decide
  have hz : ((0 : ℤ) % 256).toNat = 0 := by decide
  have a139 : 139 &&& 15 = 11 := by decide
  have a249 : 249 &&& 15 = 9 := by decide
  have a187 : 187 &&& 15 = 11 := by decide
  have a122 : 122 &&& 15 = 10 := by decide
  have b11 : 11 &&& 2 = 2 := by decide
  have b9 : 9 &&& 2 = 0 := by decide
  have b10 : 10 &&& 2 = 2 := by decide
  simp only [perlinNoise, floor_neg_half, Int.floor_zero, hm, hz]
  norm_num [l255, l323, l324, l256, l497, l498, l25, l174, l87, l99,
    fade_half, fade_zero, noiseLerp_zero, grad, noiseLerp,
    a139, a249, a187, a122, b11, b9, b10]

set_option maxRecDepth 100000 in
/-- Gradient noise over `pTable1` at the grid point `(-1/2, -1/2)`. -/
theorem perlin1 : perlinNoise pTable1 (-(1/2)) (-(1/2)) 0 = 1/4 := by
  have l255 : pTable1[(255:ℕ)]? = some 160 := by decide
  have l415 : pTable1[(415:ℕ)]? = some 193 := by decide
  have l416 : pTable1[(416:ℕ)]? = some 19 := by decide
  have l256 : pTable1[(256:ℕ)]? = some 104 := by decide
  have l359 : pTable1[(359:ℕ)]? = some 54 := by decide
  have l360 : pTable1[(360:ℕ)]? = some 237 := by decide
  have l193 : pTable1[(193:ℕ)]? = some 22 := by decide
  have l54 : pTable1[(54:ℕ)]? = some 6 := by decide
  have l19 : pTable1[(19:ℕ)]? = some 109 := by decide
  have l237 : pTable1[(237:ℕ)]? = some 93 := by decide
  have hm : ((-1 : ℤ) % 256).toNat = 255 := by decide
  have hz : ((0 : ℤ) % 256).toNat = 0 := by decide
  have a22 : 22 &&& 15 = 6 := by decide
  have a6 : 6 &&& 15 = 6 := by decide
  have a109 : 109 &&& 15 = 13 := by decide
  have a93 : 93 &&& 15 = 13 := by decide
  have b6 : 6 &&& 2 = 2 := by decide
  have b13 : 13 &&& 2 = 0 := by decide
  simp only [perlinNoise, floor_neg_half, Int.floor_zero, hm, hz]
  norm_num [l255, l415, l416, l256, l359, l360, l193, l54, l19, l237,
    fade_half, fade_zero, noiseLerp_zero, grad, noiseLerp,
    a22, a6, a109, a93, b6, b13]

/-- One-octave fBm is a single noise sample at frequency `scale`. -/
theorem fBm_octave1 (perm : List ℕ) (x y : ℚ) (p : NoiseParams)
    (ho : p.octaves = 1) :
    fBm perm x y p = perlinNoise perm (x * p.scale) (y * p.scale) 0 := by
  have hr1 : List.range 1 = [0] := by decide
  simp only [fBm, ho]
  norm_num [Int.ceil_one, fBmStep, hr1, List.foldl_cons, List.foldl_nil]

/-- `calculateElevation` over the all-defaults-present block `npFlat` is a
bare fBm sample (base height 0, amplitude 1). -/
theorem calcElev_npFlat (g : TerrainGenerator) (x y : ℚ) :
    calculateElevation g x y npFlat
      = fBm g.noisePerm x y (mergeElevationDefaults npFlat) := by
  simp [calculateElevation, mergeElevationDefaults, npFlat]

/-- The `(0,0)` height entry of a `P1` engine is one gradient-noise sample
over the ambient-seeded table. -/
theorem heightEntry00 (a : ℕ) :
    heightEntry (TerrainGenerator.mk' P1 a) 0 0
      = perlinNoise (generatePermutation a) (-(1/2)) (-(1/2)) 0 := by
  have hb : (TerrainGenerator.mk' P1 a).biomes = [onlyBiome] :=
    sortBiomes_singleton onlyBiome
  have hseg : (TerrainGenerator.mk' P1 a).segments = 1 := rfl
  have hw : (TerrainGenerator.mk' P1 a).width = 2 := rfl
  have hd : (TerrainGenerator.mk' P1 a).depth = 2 := rfl
  have hn : (TerrainGenerator.mk' P1 a).noisePerm = generatePermutation a := rfl
  have hwc : worldCoord 0 1 2 = -1 := by norm_num [worldCoord]
  simp only [heightEntry, hseg, hw, hd, hwc]
  rw [getBiomeInfo_singleton _ onlyBiome hb]
  rw [show ((onlyBiome, onlyBiome.terrainParams) :
      BiomeProfile × NoiseParams).2 = npFlat from rfl]
  rw [calcElev_npFlat, fBm_octave1 _ _ _ _ rfl, hn,
    show (mergeElevationDefaults npFlat).scale = 1/2 from rfl]
  norm_num

/-- C1 counterexample: the same parameter structure `P1`, two different
ambient `Math.random()` draws (0 and 1) at construction time, two different
height grids — `generate()` output is *not* determined by the parameter
structure alone. -/
theorem ambient_randomness_heightGrid_counterexample :
    heightGrid (TerrainGenerator.mk' P1 0) ≠ heightGrid (TerrainGenerator.mk' P1 1) := by
  intro h
  have hs0 : (TerrainGenerator.mk' P1 0).segments = 1 := rfl
  have hs1 : (TerrainGenerator.mk' P1 1).segments = 1 := rfl
  have hr : List.range (1 + 1) = [0, 1] := by decide
  simp only [heightGrid, hs0, hs1, hr, List.map_cons, List.map_nil,
    List.cons.injEq, and_true] at h
  have h00 : heightEntry (TerrainGenerator.mk' P1 0) 0 0
      = heightEntry (TerrainGenerator.mk' P1 1) 0 0 := h.1.1
  rw [heightEntry00 0, heightEntry00 1, genPerm0, genPerm1, perlin0, perlin1] at h00
  norm_num at h00

/-- C1 (corrected): the constructor's `new PerlinNoise()` for the
general-purpose elevation noise passes *no* seed, so its permutation table
comes from the ambient `Math.random()` draw; every other engine field —
including the `biomeControl.seed`-derived control-noise table, dimensions and
the sorted biome list — is determined by the parameter structure alone.  Two
fresh engines from the same parameters agree on everything except the
ambient-seeded elevation table (and hence, by
`ambient_randomness_heightGrid_counterexample`, need not agree on the height
grid). -/
theorem constructor_ambient_seeding (P : FullTerrainParameters) (r1 r2 : ℕ) :
    TerrainGenerator.mk' P r1
      = { TerrainGenerator.mk' P r2 with noisePerm := generatePermutation r1 } := rfl

end GameProto
